import Mathlib

/-!
Verification development for the breakpad crash-processing core.

The development shallowly embeds, in Lean 4:

* the amd64 fault-address recovery helpers of
  `src/processor/minidump_processor.cc` (`IsCanonicalAddress`,
  `CalculateFaultAddressFromInstruction`);
* the Linux/Android branch of `MinidumpProcessor::GetCrashReason`;
* the symbol `Module` model and its textual writer
  (`common/module.cc` is absent from this tree; the model is reconstructed
  from the specification and from the exact expected outputs of
  `common/module_unittest.cc`);
* the DWARF compilation-unit driver and the range-list reader
  (`common/dwarf/dwarf2reader.cc` is absent from this tree; the model is
  reconstructed from the specification and from
  `common/dwarf/dwarf2reader_die_unittest.cc`).

All definitions are executable; theorems about them follow the definitions.
-/

namespace Breakpad

/-- Lowercase hex digit for a value below 16 (mirrors `%x` formatting). -/
def hexChar (n : Nat) : Char :=
  if n < 10 then Char.ofNat (48 + n) else Char.ofNat (87 + n)

/-- Hex digits of `n`, most significant first, empty for 0.  The fuel
bounds the digit count; 17 digits cover every value below `2^68`. -/
def hexCore : Nat → Nat → List Char
  | 0, _ => []
  | fuel + 1, n => if n = 0 then [] else hexCore fuel (n / 16) ++ [hexChar (n % 16)]

/-- Render `n` in lowercase hex without leading zeros, as C++
`std::ostream << std::hex` does for the symbol writer. -/
def toHex (n : Nat) : String :=
  if n = 0 then "0" else ⟨hexCore 17 n⟩

/-- Render `n` in lowercase hex zero-padded to `w` digits, as
`snprintf("0x%08x")` does (without the `0x`). -/
def hexPad (w n : Nat) : String :=
  let ds := hexCore 17 n
  ⟨List.replicate (w - ds.length) '0' ++ ds⟩

/-- Wrap-around subtraction of 64-bit unsigned integers: the value of
`a - b` in C++ `uint64_t` arithmetic, as a natural number. -/
def sub64 (a b : Nat) : Nat :=
  (a % 2 ^ 64 + (2 ^ 64 - b % 2 ^ 64)) % 2 ^ 64

/-! Amd64 fault-address recovery, from
`src/processor/minidump_processor.cc` lines 800-869. -/

/-- Embedding of `IsCanonicalAddress` (minidump_processor.cc:800):
compares bits 48..62 of the address with bit 63. -/
def isCanonicalAddress (address : Nat) : Bool :=
  let sign_bit := (address >>> 63) &&& 1
  (List.range' 48 15).all fun shift => sign_bit == ((address >>> shift) &&& 1)

/-- Embedding of the address-selection logic at the end of
`CalculateFaultAddressFromInstruction` (minidump_processor.cc:853-868).
`address` is the fault address being recovered; `valid_read` /
`read_address` are the results of `CalculateSrcAddress`, `valid_write` /
`write_address` those of `CalculateDestAddress` (the disassembler itself
is an external collaborator). -/
def calculateFaultAddress (address : Nat) (valid_read : Bool) (read_address : Nat)
    (valid_write : Bool) (write_address : Nat) : Nat :=
  let vr := valid_read && !(isCanonicalAddress read_address)
  let vw := valid_write && !(isCanonicalAddress write_address)
  if vr && vw then
    if read_address > write_address then read_address else write_address
  else if vr then read_address
  else if vw then write_address
  else address

/-! Crash-reason mapping, Linux/Android branch, from
`src/processor/minidump_processor.cc` lines 873-897 and 1686-1904.
Exception codes are the POSIX signal numbers used by the
`MD_EXCEPTION_CODE_LIN_*` constants; flags are the `si_code` values of
the `MD_EXCEPTION_FLAG_LIN_*` constants. -/

/-- The `flags_string` buffer of `GetCrashReason`
(minidump_processor.cc:894): `snprintf("0x%08x", exception_flags)`. -/
def flagsString (flags : Nat) : String :=
  "0x" ++ hexPad 8 (flags % 2 ^ 32)

/-- The numeric default `reason` of `GetCrashReason`
(minidump_processor.cc:895): `snprintf("0x%08x / %s", code, flags_string)`. -/
def defaultReason (code flags : Nat) : String :=
  "0x" ++ hexPad 8 (code % 2 ^ 32) ++ " / " ++ flagsString flags

/-- SIGILL sub-code table (minidump_processor.cc:1700-1729). -/
def sigillReason (flags : Nat) : String :=
  "SIGILL / " ++
    match flags with
    | 1 => "ILL_ILLOPC"
    | 2 => "ILL_ILLOPN"
    | 3 => "ILL_ILLADR"
    | 4 => "ILL_ILLTRP"
    | 5 => "ILL_PRVOPC"
    | 6 => "ILL_PRVREG"
    | 7 => "ILL_COPROC"
    | 8 => "ILL_BADSTK"
    | _ => flagsString flags

/-- SIGBUS sub-code table (minidump_processor.cc:1739-1759). -/
def sigbusReason (flags : Nat) : String :=
  "SIGBUS / " ++
    match flags with
    | 1 => "BUS_ADRALN"
    | 2 => "BUS_ADRERR"
    | 3 => "BUS_OBJERR"
    | 4 => "BUS_MCEERR_AR"
    | 5 => "BUS_MCEERR_AO"
    | _ => flagsString flags

/-- SIGFPE sub-code table (minidump_processor.cc:1763-1792). -/
def sigfpeReason (flags : Nat) : String :=
  "SIGFPE / " ++
    match flags with
    | 1 => "FPE_INTDIV"
    | 2 => "FPE_INTOVF"
    | 3 => "FPE_FLTDIV"
    | 4 => "FPE_FLTOVF"
    | 5 => "FPE_FLTUND"
    | 6 => "FPE_FLTRES"
    | 7 => "FPE_FLTINV"
    | 8 => "FPE_FLTSUB"
    | _ => flagsString flags

/-- SIGSEGV sub-code handling (minidump_processor.cc:1800-1835).  Note
the source initializes the reason to the string "SIGSEGV /" with no
space after the slash before appending the sub-code mnemonic. -/
def sigsegvReason (flags : Nat) : String :=
  "SIGSEGV /" ++
    match flags with
    | 1 => "SEGV_MAPERR"
    | 2 => "SEGV_ACCERR"
    | 3 => "SEGV_BNDERR"
    | 4 => "SEGV_PKUERR"
    | 5 => "SEGV_ACCADI"
    | 6 => "SEGV_ADIDERR"
    | 7 => "SEGV_ADIPERR"
    | 8 => "SEGV_MTEAERR"
    | 9 => "SEGV_MTESERR"
    | _ => flagsString flags

/-- Embedding of the `MD_OS_ANDROID` / `MD_OS_LINUX` branch of
`MinidumpProcessor::GetCrashReason` (minidump_processor.cc:1686-1904):
given the raw exception code and flags, the crash-reason string.  The
default case leaves the numeric fallback reason in place. -/
def getCrashReasonLinux (code flags : Nat) : String :=
  match code with
  | 1 => "SIGHUP"
  | 2 => "SIGINT"
  | 3 => "SIGQUIT"
  | 4 => sigillReason flags
  | 5 => "SIGTRAP"
  | 6 => "SIGABRT"
  | 7 => sigbusReason flags
  | 8 => sigfpeReason flags
  | 9 => "SIGKILL"
  | 10 => "SIGUSR1"
  | 11 => sigsegvReason flags
  | 12 => "SIGUSR2"
  | 13 => "SIGPIPE"
  | 14 => "SIGALRM"
  | 15 => "SIGTERM"
  | 16 => "SIGSTKFLT"
  | 17 => "SIGCHLD"
  | 18 => "SIGCONT"
  | 19 => "SIGSTOP"
  | 20 => "SIGTSTP"
  | 21 => "SIGTTIN"
  | 22 => "SIGTTOU"
  | 23 => "SIGURG"
  | 24 => "SIGXCPU"
  | 25 => "SIGXFSZ"
  | 26 => "SIGVTALRM"
  | 27 => "SIGPROF"
  | 28 => "SIGWINCH"
  | 29 => "SIGIO"
  | 30 => "SIGPWR"
  | 31 => "SIGSYS"
  | 0xFFFFFFFF => "DUMP_REQUESTED"
  | _ => defaultReason code flags

/-! Symbol `Module` model and writer.

Modelled from the spec: `common/module.h` / `common/module.cc` are not in
this tree (only `common/module_unittest.cc` is), so the entity model,
the add rules and the writer are reconstructed from spec section 4.3 and
from the exact expected outputs asserted by the unit tests.  Where the
spec's prose and the repository's own tests disagree (function
deduplication, same-address extern/function merging at write time, CFI
emission order), the tests are followed.  Inline trees and the
symbol-data selection mask are omitted: no claim touches them. -/

/-- Byte-wise lexicographic order on char lists (the order of C++
std::string operator<), written structurally so that it evaluates by
kernel reduction. -/
def listLtB : List Char → List Char → Bool
  | _, [] => false
  | [], _ :: _ => true
  | c :: cs, d :: ds =>
    c.toNat < d.toNat || (c.toNat == d.toNat && listLtB cs ds)

/-- Lexicographic order on strings (C++ std::string operator<). -/
def strLtB (a b : String) : Bool :=
  listLtB a.toList b.toList

/-- Module::Range: a half-open address interval given by start and size. -/
structure Range where
  address : Nat
  size : Nat
deriving Repr, DecidableEq

/-- Module::Line: one source-line record attached to a function. -/
structure Line where
  address : Nat
  size : Nat
  file : String
  number : Nat
deriving Repr, DecidableEq

/-- Module::Function (named `Func` here to avoid clashing with Lean's
root `Function` namespace): name, primary address, address ranges,
parameter size, line records and the multiple-symbols mark. -/
structure Func where
  name : String
  address : Nat
  ranges : List Range
  parameter_size : Nat
  lines : List Line
  is_multiple : Bool
deriving Repr, DecidableEq

/-- Module::Extern: a public symbol. -/
structure Extern where
  address : Nat
  name : String
  is_multiple : Bool
deriving Repr, DecidableEq

/-- Module::StackFrameEntry: one CFI entry; rule maps are association
lists (the C++ uses std::map, so the writer sorts them by key). -/
structure StackFrameEntry where
  address : Nat
  size : Nat
  initial_rules : List (String × String)
  rule_changes : List (Nat × List (String × String))
deriving Repr, DecidableEq

/-- The Module entity (spec section 3, "Module (F)").  `functions` is
kept sorted by (address, name), `externs` by address;
`stack_frame_entries` keeps insertion order (as the repository's
ConstructAddFrames test shows). -/
structure Module where
  name : String
  os : String
  architecture : String
  id : String
  code_id : String
  load_address : Nat
  enable_multiple_field : Bool
  prefer_extern_name : Bool
  address_ranges : List Range
  files : List String
  functions : List Func
  externs : List Extern
  stack_frame_entries : List StackFrameEntry
deriving Repr, DecidableEq

/-- Construct an empty module (the Module constructor). -/
def mkModule (name os architecture id : String) (code_id : String)
    (enable_multiple : Bool) (prefer_extern_name : Bool) : Module :=
  ⟨name, os, architecture, id, code_id, 0, enable_multiple, prefer_extern_name,
    [], [], [], [], []⟩

/-- SetLoadAddress. -/
def setLoadAddress (m : Module) (a : Nat) : Module :=
  { m with load_address := a }

/-- SetAddressRanges. -/
def setAddressRanges (m : Module) (rs : List Range) : Module :=
  { m with address_ranges := rs }

/-- FindFile: intern a source-file name. -/
def findFile (m : Module) (n : String) : Module :=
  if m.files.contains n then m else { m with files := m.files ++ [n] }

/-- AddStackFrameEntry: append one CFI entry (insertion order kept). -/
def addStackFrameEntry (m : Module) (e : StackFrameEntry) : Module :=
  { m with stack_frame_entries := m.stack_frame_entries ++ [e] }

/-- Clear bit 0 of an extern address when the architecture is ARM: the
low bit of a Thumb symbol address denotes the instruction set, while the
DWARF function address is the even value. -/
def stripThumb (architecture : String) (a : Nat) : Nat :=
  if architecture == "arm" then a - a % 2 else a

/-- Insert an extern keeping the list sorted by address (the C++
ExternSet is an address-ordered set); the caller has ruled out equal
addresses. -/
def insertExtern : List Extern → Extern → List Extern
  | [], e => [e]
  | x :: xs, e => if e.address < x.address then e :: x :: xs else x :: insertExtern xs e

/-- AddExtern: uniqueness by address with first-wins; a duplicate marks
the retained extern `m` when `enable_multiple_field` is set. -/
def addExtern (m : Module) (e : Extern) : Module :=
  if m.externs.any (fun x => x.address == e.address) then
    if m.enable_multiple_field then
      { m with externs := m.externs.map fun x =>
          if x.address == e.address then { x with is_multiple := true } else x }
    else m
  else
    { m with externs := insertExtern m.externs e }

/-- Strict order on functions: by primary address, then by name (the C++
FunctionCompare). -/
def funcLt (f g : Func) : Bool :=
  f.address < g.address || (f.address == g.address && strLtB f.name g.name)

/-- Insert a function keeping the list sorted by `funcLt`; the caller
has ruled out an equal key. -/
def insertFunc : List Func → Func → List Func
  | [], f => [f]
  | x :: xs, f => if funcLt f x then f :: x :: xs else x :: insertFunc xs f

/-- AddFunction.  An empty name is replaced by "<name omitted>"; with
`prefer_extern_name` the function takes the name of an extern at the
same address.  Dedup key: with `enable_multiple_field` the primary
address alone (the rejected duplicate marks the retained function `m`);
otherwise the (address, name) pair, so two functions with identical
ranges but different names are both retained (as the repository's
ConstructFunctionsWithSameAddress test requires).  Returns the updated
module and whether the function was inserted. -/
def addFunction (m : Module) (f0 : Func) : Module × Bool :=
  let f1 := if f0.name == "" then { f0 with name := "<name omitted>" } else f0
  let f := if m.prefer_extern_name then
      match m.externs.find? (fun e => e.address == f1.address) with
      | some e => { f1 with name := e.name }
      | none => f1
    else f1
  if m.enable_multiple_field then
    if m.functions.any (fun g => g.address == f.address) then
      ({ m with functions := m.functions.map fun g =>
          if g.address == f.address then { g with is_multiple := true } else g }, false)
    else
      ({ m with functions := insertFunc m.functions f }, true)
  else
    if m.functions.any (fun g => g.address == f.address && g.name == f.name) then
      (m, false)
    else
      ({ m with functions := insertFunc m.functions f }, true)

/-- AddressIsInModule: with no configured ranges everything is in; else
membership in some half-open [begin, begin+size) range. -/
def addressIsInModule (m : Module) (a : Nat) : Bool :=
  m.address_ranges.isEmpty ||
    m.address_ranges.any (fun r => r.address ≤ a && a < r.address + r.size)

/-- Sort a string list lexicographically (insertion sort, matching the
name-ordered std::map over files). -/
def insertString : List String → String → List String
  | [], s => [s]
  | x :: xs, s => if strLtB s x then s :: x :: xs else x :: insertString xs s

/-- Insertion sort of file names. -/
def sortStrings : List String → List String
  | [] => []
  | x :: xs => insertString (sortStrings xs) x

/-- The files cited by at least one line of an in-range function. -/
def citedFiles (m : Module) : List String :=
  (m.functions.filter (fun f => addressIsInModule m f.address)).flatMap
    fun f => f.lines.map (·.file)

/-- AssignSourceIds, functionally: the cited files in lexicographic
order; their positions are the source ids 0, 1, 2, ... -/
def usedFiles (m : Module) : List String :=
  (sortStrings m.files).filter (fun n => (citedFiles m).contains n)

/-- The source id of a file name: its index among the used files, or -1. -/
def fileId (m : Module) (n : String) : Int :=
  match (usedFiles m).findIdx? (fun x => x == n) with
  | some i => (i : Int)
  | none => -1

/-- Sorted insert of a CFI rule by rule name. -/
def insertRule : List (String × String) → (String × String) → List (String × String)
  | [], r => [r]
  | x :: xs, r => if strLtB r.1 x.1 then r :: x :: xs else x :: insertRule xs r

/-- Rule maps are emitted sorted by rule name (std::map iteration). -/
def sortRules : List (String × String) → List (String × String)
  | [] => []
  | x :: xs => insertRule (sortRules xs) x

/-- Sorted insert of a CFI delta row by address. -/
def insertChange : List (Nat × List (String × String)) → Nat × List (String × String) →
    List (Nat × List (String × String))
  | [], c => [c]
  | x :: xs, c => if c.1 < x.1 then c :: x :: xs else x :: insertChange xs c

/-- Delta rows are emitted sorted by address (std::map iteration). -/
def sortChanges : List (Nat × List (String × String)) → List (Nat × List (String × String))
  | [] => []
  | x :: xs => insertChange (sortChanges xs) x

/-- One record of the symbol file, before textual rendering. -/
inductive SymRecord where
  | moduleRec (os architecture id name : String)
  | infoCodeId (code_id : String)
  | fileRec (id : Nat) (name : String)
  | funcRec (multiple : Bool) (address size parameter_size : Nat) (name : String)
  | lineRec (address size : Nat) (number : Nat) (file_id : Int)
  | publicRec (multiple : Bool) (address : Nat) (name : String)
  | cfiInitRec (address size : Nat) (rules : List (String × String))
  | cfiDeltaRec (address : Nat) (rules : List (String × String))
deriving Repr, DecidableEq

/-- WriteRuleMap: rules joined as "name: expr" with a single space
between consecutive rules (no leading or trailing separator). -/
def renderRules : List (String × String) → String
  | [] => ""
  | r :: rs => r.1 ++ ": " ++ r.2 ++ String.join (rs.map fun q => " " ++ q.1 ++ ": " ++ q.2)

/-- Textual rendering of one record, exactly as Module::Write prints it
(hex lowercase without 0x; a space always follows the size of a
STACK CFI INIT record before the rule list). -/
def renderRecord : SymRecord → String
  | .moduleRec os architecture id name =>
      "MODULE " ++ os ++ " " ++ architecture ++ " " ++ id ++ " " ++ name ++ "\n"
  | .infoCodeId c => "INFO CODE_ID " ++ c ++ "\n"
  | .fileRec i n => "FILE " ++ toString i ++ " " ++ n ++ "\n"
  | .funcRec mm a s p n =>
      "FUNC " ++ (if mm then "m " else "") ++ toHex a ++ " " ++ toHex s ++ " " ++
        toHex p ++ " " ++ n ++ "\n"
  | .lineRec a s num fid =>
      toHex a ++ " " ++ toHex s ++ " " ++ toString num ++ " " ++ toString fid ++ "\n"
  | .publicRec mm a n =>
      "PUBLIC " ++ (if mm then "m " else "") ++ toHex a ++ " 0 " ++ n ++ "\n"
  | .cfiInitRec a s rules =>
      "STACK CFI INIT " ++ toHex a ++ " " ++ toHex s ++ " " ++ renderRules rules ++ "\n"
  | .cfiDeltaRec a rules =>
      "STACK CFI " ++ toHex a ++ " " ++ renderRules rules ++ "\n"

/-- Whether a FUNC record carries the `m` mark: the multiple field is
enabled and either a rejected duplicate marked the function or an extern
lives at the same address (modulo the ARM Thumb bit). -/
def funcIsMultiple (m : Module) (f : Func) : Bool :=
  m.enable_multiple_field &&
    (f.is_multiple ||
      m.externs.any (fun e => stripThumb m.architecture e.address == f.address))

/-- FUNC and line records of one function: one FUNC header per range
(address relocated by `load`), followed by the lines whose (original)
addresses fall inside that range, consumed in insertion order by a
single cursor. -/
def funcRangeRecords (m : Module) (load : Nat) (f : Func) :
    List Range → List Line → List SymRecord
  | [], _ => []
  | r :: rs, lines =>
    SymRecord.funcRec (funcIsMultiple m f) (sub64 r.address load) r.size
        f.parameter_size f.name
      :: (lines.takeWhile fun l => r.address ≤ l.address && l.address < r.address + r.size).map
          (fun l => SymRecord.lineRec (sub64 l.address load) l.size l.number (fileId m l.file))
      ++ funcRangeRecords m load f rs
          (lines.dropWhile fun l => r.address ≤ l.address && l.address < r.address + r.size)

/-- CFI records of one stack-frame entry: the INIT row then the delta
rows in address order, all relocated by `load`. -/
def cfiRecords (load : Nat) (e : StackFrameEntry) : List SymRecord :=
  SymRecord.cfiInitRec (sub64 e.address load) e.size (sortRules e.initial_rules)
    :: (sortChanges e.rule_changes).map
        fun c => SymRecord.cfiDeltaRec (sub64 c.1 load) (sortRules c.2)

/-- Whether a PUBLIC record is emitted for an extern: it must be inside
the address ranges and no function may sit at its (Thumb-stripped)
address: same-address externs are merged into the FUNC at write time. -/
def externEmitted (m : Module) (e : Extern) : Bool :=
  addressIsInModule m e.address &&
    !(m.functions.any fun f => f.address == stripThumb m.architecture e.address)

/-- The record stream of Module::Write given the effective load address:
MODULE header, optional INFO CODE_ID, FILE records, FUNC records with
their lines, PUBLIC records, then the CFI records. -/
def writeRecordsWith (m : Module) (load : Nat) : List SymRecord :=
  SymRecord.moduleRec m.os m.architecture m.id m.name
    :: (if m.code_id == "" then [] else [SymRecord.infoCodeId m.code_id])
    ++ (usedFiles m).enum.map (fun p => SymRecord.fileRec p.1 p.2)
    ++ (m.functions.filter fun f => addressIsInModule m f.address).flatMap
        (fun f => funcRangeRecords m load f f.ranges f.lines)
    ++ (m.externs.filter (externEmitted m)).map
        (fun e => SymRecord.publicRec (m.enable_multiple_field && e.is_multiple)
          (sub64 e.address load) e.name)
    ++ (m.stack_frame_entries.filter fun e => addressIsInModule m e.address).flatMap
        (cfiRecords load)

/-- The load address actually subtracted by Write: zero when
`preserve_load_address` is set. -/
def effectiveLoad (m : Module) (preserve_load_address : Bool) : Nat :=
  if preserve_load_address then 0 else m.load_address

/-- The record stream of Module::Write. -/
def writeRecords (m : Module) (preserve_load_address : Bool) : List SymRecord :=
  writeRecordsWith m (effectiveLoad m preserve_load_address)

/-- Module::Write, the full textual output. -/
def write (m : Module) (preserve_load_address : Bool) : String :=
  String.join ((writeRecords m preserve_load_address).map renderRecord)

/-- Subtract `l` (in 64-bit wrap-around arithmetic) from every address
field of a record, leaving sizes, names, numbers and ids unchanged. -/
def relocRecord (l : Nat) : SymRecord → SymRecord
  | .funcRec mm a s p n => .funcRec mm (sub64 a l) s p n
  | .lineRec a s num fid => .lineRec (sub64 a l) s num fid
  | .publicRec mm a n => .publicRec mm (sub64 a l) n
  | .cfiInitRec a s rules => .cfiInitRec (sub64 a l) s rules
  | .cfiDeltaRec a rules => .cfiDeltaRec (sub64 a l) rules
  | r => r

/-! DWARF reader model.

Modelled from the spec: `common/dwarf/dwarf2reader.h` /
`common/dwarf/dwarf2reader.cc` and `common/dwarf/bytereader*` are not in
this tree (only `common/dwarf/dwarf2reader_die_unittest.cc` is).  The
byte reader (spec component A), the abbreviation table (B), the form
decoder (C), the compilation-unit driver (D) and the range-list reader
(E) are reconstructed from spec sections 3, 4.1 and 4.2, and checked
against the byte-level scenarios of the unit tests.  Handler callbacks
are modelled as an event list (the handlers' boolean continue/recurse
results are taken to be true, as in every test); recursion is bounded by
explicit fuel, always called with more fuel than bytes available. -/

/-- Byte order of the debug sections. -/
inductive Endian where
  | little
  | big
deriving Repr, DecidableEq

/-- Value of a fixed-width word given its bytes in section order. -/
def wordValue (e : Endian) (bs : List Nat) : Nat :=
  match e with
  | .big => bs.foldl (fun a b => a * 256 + b % 256) 0
  | .little => bs.foldr (fun b a => a * 256 + b % 256) 0

/-- Read `n` bytes at `pos`; fails (reports truncated) past the end. -/
def readBytes (buf : List Nat) (pos n : Nat) : Option (List Nat) :=
  if pos + n ≤ buf.length then some ((buf.drop pos).take n) else none

/-- Read a fixed-width unsigned integer of `n` bytes at `pos`. -/
def readFixed (e : Endian) (buf : List Nat) (pos n : Nat) : Option Nat :=
  (readBytes buf pos n).map (wordValue e)

/-- Unsigned LEB128 at `pos`: the value and the number of bytes
consumed.  The fuel bounds the byte count. -/
def readULEBCore : Nat → List Nat → Nat → Option (Nat × Nat)
  | 0, _, _ => none
  | fuel + 1, buf, pos =>
    match buf.get? pos with
    | none => none
    | some b0 =>
      let b := b0 % 256
      if b < 128 then some (b, 1)
      else
        match readULEBCore fuel buf (pos + 1) with
        | none => none
        | some (v, len) => some (b % 128 + 128 * v, len + 1)

/-- Unsigned LEB128 with enough fuel for the whole buffer. -/
def readULEB (buf : List Nat) (pos : Nat) : Option (Nat × Nat) :=
  readULEBCore (buf.length + 1) buf pos

/-- Signed LEB128 at `pos`: the value and the bytes consumed. -/
def readSLEBCore : Nat → List Nat → Nat → Option (Int × Nat)
  | 0, _, _ => none
  | fuel + 1, buf, pos =>
    match buf.get? pos with
    | none => none
    | some b0 =>
      let b := b0 % 256
      if b < 128 then
        some (if b % 128 < 64 then ((b % 128 : Nat) : Int)
              else ((b % 128 : Nat) : Int) - 128, 1)
      else
        match readSLEBCore fuel buf (pos + 1) with
        | none => none
        | some (v, len) => some (((b % 128 : Nat) : Int) + 128 * v, len + 1)

/-- Signed LEB128 with enough fuel for the whole buffer. -/
def readSLEB (buf : List Nat) (pos : Nat) : Option (Int × Nat) :=
  readSLEBCore (buf.length + 1) buf pos

/-- NUL-terminated string at `pos` (ASCII bytes): the string and the
bytes consumed including the terminator. -/
def readCStringCore : Nat → List Nat → Nat → Option (List Char × Nat)
  | 0, _, _ => none
  | fuel + 1, buf, pos =>
    match buf.get? pos with
    | none => none
    | some b =>
      if b % 256 = 0 then some ([], 1)
      else
        match readCStringCore fuel buf (pos + 1) with
        | none => none
        | some (cs, len) => some (Char.ofNat (b % 256) :: cs, len + 1)

/-- NUL-terminated string with enough fuel for the whole buffer. -/
def readCString (buf : List Nat) (pos : Nat) : Option (String × Nat) :=
  (readCStringCore (buf.length + 1) buf pos).map fun p => (⟨p.1⟩, p.2)

/-! Range-list reader (spec section 4.2). -/

/-- A callback of the RangeListHandler: AddRange or Finish. -/
inductive REvent where
  | addRange (rbegin rend : Nat)
  | finish
deriving Repr, DecidableEq

/-- RangeListReader::CURangesInfo: the context a compilation unit hands
to the range-list reader. -/
structure CURangesInfo where
  version : Nat
  base_address : Nat
  ranges_base : Nat
  buffer : List Nat
  addr_base : Nat
  addr_buffer : List Nat
deriving Repr, DecidableEq

/-- The address-size all-ones value: a DWARF 4 range pair starting with
it resets the base address. -/
def maxWord (addr_size : Nat) : Nat :=
  2 ^ (8 * addr_size) - 1

/-- DWARF 4 `.debug_ranges` walk: pairs of address-size words from
`pos`; `(0,0)` terminates and fires Finish, `(MAX, v)` resets the base
without emitting, any other `(a, b)` emits AddRange(base+a, base+b).
Returns whether the walk succeeded together with the emitted events. -/
def readDebugRanges (e : Endian) (addr_size : Nat) (buf : List Nat) :
    Nat → Nat → Nat → Bool × List REvent
  | 0, _, _ => (false, [])
  | fuel + 1, pos, base =>
    match readFixed e buf pos addr_size, readFixed e buf (pos + addr_size) addr_size with
    | some a, some b =>
      if a = 0 ∧ b = 0 then (true, [.finish])
      else if a = maxWord addr_size then
        readDebugRanges e addr_size buf fuel (pos + 2 * addr_size) b
      else
        let r := readDebugRanges e addr_size buf fuel (pos + 2 * addr_size) base
        (r.1, .addRange (base + a) (base + b) :: r.2)
    | _, _ => (false, [])

/-- Look up entry `idx` of the `.debug_addr` slice of the CU. -/
def rangeAddr (e : Endian) (addr_size : Nat) (info : CURangesInfo) (idx : Nat) : Option Nat :=
  readFixed e info.addr_buffer (info.addr_base + idx * addr_size) addr_size

/-- DWARF 5 `.debug_rnglists` opcode walk from `pos` (spec 4.2 table):
DW_RLE_end_of_list 0x00, base_addressx 0x01, startx_endx 0x02,
startx_length 0x03, offset_pair 0x04, base_address 0x05, start_end
0x06, start_length 0x07.  Unknown opcodes and truncation fail. -/
def readDebugRngList (e : Endian) (addr_size : Nat) (info : CURangesInfo) :
    Nat → Nat → Nat → Bool × List REvent
  | 0, _, _ => (false, [])
  | fuel + 1, pos, base =>
    match info.buffer.get? pos with
    | none => (false, [])
    | some op =>
      if op % 256 = 0 then (true, [.finish])
      else if op % 256 = 1 then
        match readULEB info.buffer (pos + 1) with
        | none => (false, [])
        | some (idx, l) =>
          match rangeAddr e addr_size info idx with
          | none => (false, [])
          | some b => readDebugRngList e addr_size info fuel (pos + 1 + l) b
      else if op % 256 = 2 then
        match readULEB info.buffer (pos + 1) with
        | none => (false, [])
        | some (si, l1) =>
          match readULEB info.buffer (pos + 1 + l1) with
          | none => (false, [])
          | some (ei, l2) =>
            match rangeAddr e addr_size info si, rangeAddr e addr_size info ei with
            | some sa, some ea =>
              let r := readDebugRngList e addr_size info fuel (pos + 1 + l1 + l2) base
              (r.1, .addRange sa ea :: r.2)
            | _, _ => (false, [])
      else if op % 256 = 3 then
        match readULEB info.buffer (pos + 1) with
        | none => (false, [])
        | some (si, l1) =>
          match readULEB info.buffer (pos + 1 + l1) with
          | none => (false, [])
          | some (len, l2) =>
            match rangeAddr e addr_size info si with
            | none => (false, [])
            | some sa =>
              let r := readDebugRngList e addr_size info fuel (pos + 1 + l1 + l2) base
              (r.1, .addRange sa (sa + len) :: r.2)
      else if op % 256 = 4 then
        match readULEB info.buffer (pos + 1) with
        | none => (false, [])
        | some (o1, l1) =>
          match readULEB info.buffer (pos + 1 + l1) with
          | none => (false, [])
          | some (o2, l2) =>
            let r := readDebugRngList e addr_size info fuel (pos + 1 + l1 + l2) base
            (r.1, .addRange (base + o1) (base + o2) :: r.2)
      else if op % 256 = 5 then
        match readFixed e info.buffer (pos + 1) addr_size with
        | none => (false, [])
        | some b => readDebugRngList e addr_size info fuel (pos + 1 + addr_size) b
      else if op % 256 = 6 then
        match readFixed e info.buffer (pos + 1) addr_size,
            readFixed e info.buffer (pos + 1 + addr_size) addr_size with
        | some sa, some ea =>
          let r := readDebugRngList e addr_size info fuel (pos + 1 + 2 * addr_size) base
          (r.1, .addRange sa ea :: r.2)
        | _, _ => (false, [])
      else if op % 256 = 7 then
        match readFixed e info.buffer (pos + 1) addr_size with
        | none => (false, [])
        | some sa =>
          match readULEB info.buffer (pos + 1 + addr_size) with
          | none => (false, [])
          | some (len, l1) =>
            let r := readDebugRngList e addr_size info fuel (pos + 1 + addr_size + l1) base
            (r.1, .addRange sa (sa + len) :: r.2)
      else (false, [])

/-- RangeListReader::ReadRanges (spec 4.2).  `form` is
DW_FORM_sec_offset (0x17, `data` a byte offset into the section) or
DW_FORM_rnglistx (0x23, `data` an index into the CU's offset-entry
table at `ranges_base`).  The offset-entry count is the 4-byte
`offset_entry_count` header field immediately preceding `ranges_base`;
an index outside the table, or an offset outside the section, returns
false without emitting any event. -/
def readRanges (e : Endian) (addr_size offset_size : Nat) (info : CURangesInfo)
    (form : Nat) (data : Nat) : Bool × List REvent :=
  if form = 0x17 then
    if info.version ≤ 4 then
      readDebugRanges e addr_size info.buffer (info.buffer.length + 1) data info.base_address
    else
      readDebugRngList e addr_size info (info.buffer.length + 1) data info.base_address
  else if form = 0x23 then
    match readFixed e info.buffer (info.ranges_base - 4) 4 with
    | none => (false, [])
    | some count =>
      if data < count then
        match readFixed e info.buffer (info.ranges_base + offset_size * data) offset_size with
        | none => (false, [])
        | some w =>
          readDebugRngList e addr_size info (info.buffer.length + 1)
            (info.ranges_base + w) info.base_address
      else (false, [])
  else (false, [])

/-- The DWARF 4 range pairs as written in the section, starting at
`pos`: address-size word pairs up to and including the `(0,0)`
sentinel.  This is the "source sequence" a range list denotes. -/
def decodePairs (e : Endian) (addr_size : Nat) (buf : List Nat) :
    Nat → Nat → Option (List (Nat × Nat))
  | 0, _ => none
  | fuel + 1, pos =>
    match readFixed e buf pos addr_size, readFixed e buf (pos + addr_size) addr_size with
    | some a, some b =>
      if a = 0 ∧ b = 0 then some [(0, 0)]
      else
        match decodePairs e addr_size buf fuel (pos + 2 * addr_size) with
        | none => none
        | some ps => some ((a, b) :: ps)
    | _, _ => none

/-- Emission a DWARF 4 pair sequence should produce, written from the
spec's words (section 4.2): `(0,0)` terminates, `(MAX, v)` resets the
base and is itself never emitted, every other pair `(a, b)` emits
`(base + a, base + b)` in source order. -/
def specDwarf4Ranges (addr_size : Nat) : Nat → List (Nat × Nat) → List REvent
  | _, [] => []
  | base, (a, b) :: ps =>
    if a = 0 ∧ b = 0 then [.finish]
    else if a = maxWord addr_size then specDwarf4Ranges addr_size b ps
    else .addRange (base + a) (base + b) :: specDwarf4Ranges addr_size base ps

/-! Compilation-unit driver (spec section 4.1) with the abbreviation
table (spec component B) and the form decoder (spec component C). -/

/-- The debug sections handed to the reader (borrowed byte slices). -/
structure DwarfSections where
  debug_info : List Nat
  debug_abbrev : List Nat
  debug_str : List Nat
  debug_line_str : List Nat
  debug_str_offsets : List Nat
  debug_addr : List Nat
deriving Repr, DecidableEq

/-- One attribute of an abbreviation: name, form, and the baked signed
value when the form is DW_FORM_implicit_const (0 otherwise). -/
structure AbbrevAttr where
  attr : Nat
  form : Nat
  value : Int
deriving Repr, DecidableEq

/-- One abbreviation table entry. -/
structure DwarfAbbrev where
  code : Nat
  tag : Nat
  has_children : Bool
  attributes : List AbbrevAttr
deriving Repr, DecidableEq

/-- Parse the (attribute, form[, implicit-const]) list of one
abbreviation, ending at the (0, 0) pair. -/
def parseAbbrevAttrs : Nat → List Nat → Nat → Option (List AbbrevAttr × Nat)
  | 0, _, _ => none
  | fuel + 1, buf, pos =>
    match readULEB buf pos with
    | none => none
    | some (attr, l1) =>
      match readULEB buf (pos + l1) with
      | none => none
      | some (form, l2) =>
        if attr = 0 ∧ form = 0 then some ([], pos + l1 + l2)
        else if form = 0x21 then
          match readSLEB buf (pos + l1 + l2) with
          | none => none
          | some (v, l3) =>
            match parseAbbrevAttrs fuel buf (pos + l1 + l2 + l3) with
            | none => none
            | some (rest, after) => some (⟨attr, form, v⟩ :: rest, after)
        else
          match parseAbbrevAttrs fuel buf (pos + l1 + l2) with
          | none => none
          | some (rest, after) => some (⟨attr, form, 0⟩ :: rest, after)

/-- Parse an abbreviation table at `pos` of `.debug_abbrev`, ending at
abbrev code 0. -/
def parseAbbrevs : Nat → List Nat → Nat → Option (List DwarfAbbrev)
  | 0, _, _ => none
  | fuel + 1, buf, pos =>
    match readULEB buf pos with
    | none => none
    | some (code, l1) =>
      if code = 0 then some []
      else
        match readULEB buf (pos + l1) with
        | none => none
        | some (tag, l2) =>
          match buf.get? (pos + l1 + l2) with
          | none => none
          | some hc =>
            match parseAbbrevAttrs (buf.length + 1) buf (pos + l1 + l2 + 1) with
            | none => none
            | some (attrs, after) =>
              match parseAbbrevs fuel buf after with
              | none => none
              | some rest => some (⟨code, tag, hc % 256 ≠ 0, attrs⟩ :: rest)

/-- Parsed compilation-unit header (spec section 3, "Compilation
Unit").  `lenFieldSize` is the wire size of the initial-length field (4
or 12); `header_size` the full header size; `unit_type` is 0 below
DWARF 5. -/
structure CUHeader where
  offset_size : Nat
  lenFieldSize : Nat
  unit_length : Nat
  version : Nat
  unit_type : Nat
  abbrev_offset : Nat
  address_size : Nat
  header_size : Nat
deriving Repr, DecidableEq

/-- Parse a CU header at the start of `sec` (the `.debug_info` suffix
at the CU's offset).  The first 4 bytes equal to 0xffffffff select the
64-bit format; version 5 carries the unit-type byte and address size
before the abbrev offset, versions 2-4 the abbrev offset before the
address size. -/
def parseCUHeader (e : Endian) (sec : List Nat) : Option CUHeader :=
  match readFixed e sec 0 4 with
  | none => none
  | some first4 =>
    let ofsSize := if first4 = 0xffffffff then 8 else 4
    let lfs := if first4 = 0xffffffff then 12 else 4
    let lenOpt := if first4 = 0xffffffff then readFixed e sec 4 8 else some first4
    match lenOpt with
    | none => none
    | some len =>
      match readFixed e sec lfs 2 with
      | none => none
      | some version =>
        if version ≥ 5 then
          match sec.get? (lfs + 2), sec.get? (lfs + 3),
              readFixed e sec (lfs + 4) ofsSize with
          | some ut, some asz, some ao =>
            some ⟨ofsSize, lfs, len, version, ut % 256, ao, asz % 256, lfs + 4 + ofsSize⟩
          | _, _, _ => none
        else
          match readFixed e sec (lfs + 2) ofsSize, sec.get? (lfs + 2 + ofsSize) with
          | some ao, some asz =>
            some ⟨ofsSize, lfs, len, version, 0, ao, asz % 256, lfs + 3 + ofsSize⟩
          | _, _ => none

/-- A handler callback of the CU driver, as an event. -/
inductive DwarfEvent where
  | startCU (offset address_size offset_size cu_length version : Nat)
  | startDIE (die_offset tag : Nat)
  | attrUnsigned (die_offset attr form value : Nat)
  | attrSigned (die_offset attr form : Nat) (value : Int)
  | attrReference (die_offset attr form value : Nat)
  | attrString (die_offset attr form : Nat) (value : String)
  | attrBuffer (die_offset attr form bufStart bufLen : Nat)
  | attrSignature (die_offset attr form value : Nat)
  | endDIE (die_offset : Nat)
deriving Repr, DecidableEq

/-- Per-CU derived context: `str_offsets_base` and `addr_base`,
initialized to the first post-header entry of their tables and updated
when the corresponding DIE attributes appear. -/
structure FormCtx where
  str_offsets_base : Nat
  addr_base : Nat
deriving Repr, DecidableEq

/-- Update the derived context from a delivered attribute:
DW_AT_str_offsets_base is 0x72, DW_AT_addr_base is 0x73. -/
def updateCtx (ctx : FormCtx) : DwarfEvent → FormCtx
  | .attrUnsigned _ 0x72 _ v => { ctx with str_offsets_base := v }
  | .attrUnsigned _ 0x73 _ v => { ctx with addr_base := v }
  | _ => ctx

/-- Fetch a string of `.debug_str` (or `.debug_line_str`) at `off`. -/
def stringAt (strsec : List Nat) (off : Nat) : Option String :=
  (readCString strsec off).map (·.1)

/-- Resolve a `strx*` index through `.debug_str_offsets` at
`str_offsets_base` into `.debug_str`.  The entry taken is `index - 1`
past the base: the reader counts string indices from 1 relative to the
table header, as the repository's strx1 unit test pins down (index 2
with table [0,6,11,18] resolves to offset 6, "bird"). -/
def strxLookup (s : DwarfSections) (e : Endian) (offset_size : Nat) (ctx : FormCtx)
    (idx : Nat) : Option String :=
  match readFixed e s.debug_str_offsets (ctx.str_offsets_base + (idx - 1) * offset_size)
      offset_size with
  | none => none
  | some w => stringAt s.debug_str w

/-- Resolve an `addrx*` index through `.debug_addr` at `addr_base`. -/
def addrxLookup (s : DwarfSections) (e : Endian) (address_size : Nat) (ctx : FormCtx)
    (idx : Nat) : Option Nat :=
  readFixed e s.debug_addr (ctx.addr_base + idx * address_size) address_size

/-- Form decoder (spec section 4.1 form decode table): reads the value
of one attribute with form `form` at relative position `pos` of the CU
slice `cu`, and yields the delivered event, the next position and the
updated context.  CU-relative reference forms (ref1/2/4/8/udata) are
adjusted by the CU's start offset; ref_addr and ref_sig8 are not.
Unknown forms are fatal for the CU (none). -/
def decodeForm (s : DwarfSections) (e : Endian) (hdr : CUHeader) (cu_offset : Nat)
    (cu : List Nat) (ctx : FormCtx) (die : Nat) (attr form : Nat) (iconst : Int)
    (pos : Nat) : Option (DwarfEvent × Nat × FormCtx) :=
  let deliver : DwarfEvent → Nat → Option (DwarfEvent × Nat × FormCtx) :=
    fun ev p => some (ev, p, updateCtx ctx ev)
  match form with
  | 0x01 =>  -- DW_FORM_addr
    match readFixed e cu pos hdr.address_size with
    | none => none
    | some v => deliver (.attrUnsigned die attr form v) (pos + hdr.address_size)
  | 0x03 =>  -- DW_FORM_block2
    match readFixed e cu pos 2 with
    | none => none
    | some n =>
      if pos + 2 + n ≤ cu.length then
        deliver (.attrBuffer die attr form (cu_offset + pos + 2) n) (pos + 2 + n)
      else none
  | 0x04 =>  -- DW_FORM_block4
    match readFixed e cu pos 4 with
    | none => none
    | some n =>
      if pos + 4 + n ≤ cu.length then
        deliver (.attrBuffer die attr form (cu_offset + pos + 4) n) (pos + 4 + n)
      else none
  | 0x05 =>  -- DW_FORM_data2
    match readFixed e cu pos 2 with
    | none => none
    | some v => deliver (.attrUnsigned die attr form v) (pos + 2)
  | 0x06 =>  -- DW_FORM_data4
    match readFixed e cu pos 4 with
    | none => none
    | some v => deliver (.attrUnsigned die attr form v) (pos + 4)
  | 0x07 =>  -- DW_FORM_data8
    match readFixed e cu pos 8 with
    | none => none
    | some v => deliver (.attrUnsigned die attr form v) (pos + 8)
  | 0x08 =>  -- DW_FORM_string
    match readCString cu pos with
    | none => none
    | some (str, len) => deliver (.attrString die attr form str) (pos + len)
  | 0x09 =>  -- DW_FORM_block
    match readULEB cu pos with
    | none => none
    | some (n, l) =>
      if pos + l + n ≤ cu.length then
        deliver (.attrBuffer die attr form (cu_offset + pos + l) n) (pos + l + n)
      else none
  | 0x0a =>  -- DW_FORM_block1
    match readFixed e cu pos 1 with
    | none => none
    | some n =>
      if pos + 1 + n ≤ cu.length then
        deliver (.attrBuffer die attr form (cu_offset + pos + 1) n) (pos + 1 + n)
      else none
  | 0x0b =>  -- DW_FORM_data1
    match readFixed e cu pos 1 with
    | none => none
    | some v => deliver (.attrUnsigned die attr form v) (pos + 1)
  | 0x0c =>  -- DW_FORM_flag
    match readFixed e cu pos 1 with
    | none => none
    | some v => deliver (.attrUnsigned die attr form v) (pos + 1)
  | 0x0d =>  -- DW_FORM_sdata
    match readSLEB cu pos with
    | none => none
    | some (v, l) => deliver (.attrSigned die attr form v) (pos + l)
  | 0x0e =>  -- DW_FORM_strp
    match readFixed e cu pos hdr.offset_size with
    | none => none
    | some w =>
      match stringAt s.debug_str w with
      | none => none
      | some str => deliver (.attrString die attr form str) (pos + hdr.offset_size)
  | 0x0f =>  -- DW_FORM_udata
    match readULEB cu pos with
    | none => none
    | some (v, l) => deliver (.attrUnsigned die attr form v) (pos + l)
  | 0x10 =>  -- DW_FORM_ref_addr: section-absolute, no CU-base adjustment
    let w := if hdr.version ≥ 3 then hdr.offset_size else hdr.address_size
    match readFixed e cu pos w with
    | none => none
    | some v => deliver (.attrReference die attr form v) (pos + w)
  | 0x11 =>  -- DW_FORM_ref1: CU-relative
    match readFixed e cu pos 1 with
    | none => none
    | some v => deliver (.attrReference die attr form (cu_offset + v)) (pos + 1)
  | 0x12 =>  -- DW_FORM_ref2
    match readFixed e cu pos 2 with
    | none => none
    | some v => deliver (.attrReference die attr form (cu_offset + v)) (pos + 2)
  | 0x13 =>  -- DW_FORM_ref4
    match readFixed e cu pos 4 with
    | none => none
    | some v => deliver (.attrReference die attr form (cu_offset + v)) (pos + 4)
  | 0x14 =>  -- DW_FORM_ref8
    match readFixed e cu pos 8 with
    | none => none
    | some v => deliver (.attrReference die attr form (cu_offset + v)) (pos + 8)
  | 0x15 =>  -- DW_FORM_ref_udata
    match readULEB cu pos with
    | none => none
    | some (v, l) => deliver (.attrReference die attr form (cu_offset + v)) (pos + l)
  | 0x17 =>  -- DW_FORM_sec_offset
    match readFixed e cu pos hdr.offset_size with
    | none => none
    | some v => deliver (.attrUnsigned die attr form v) (pos + hdr.offset_size)
  | 0x18 =>  -- DW_FORM_exprloc
    match readULEB cu pos with
    | none => none
    | some (n, l) =>
      if pos + l + n ≤ cu.length then
        deliver (.attrBuffer die attr form (cu_offset + pos + l) n) (pos + l + n)
      else none
  | 0x19 =>  -- DW_FORM_flag_present: consumes no bytes, value 1
    deliver (.attrUnsigned die attr form 1) pos
  | 0x1a =>  -- DW_FORM_strx
    match readULEB cu pos with
    | none => none
    | some (idx, l) =>
      match strxLookup s e hdr.offset_size ctx idx with
      | none => none
      | some str => deliver (.attrString die attr form str) (pos + l)
  | 0x1b =>  -- DW_FORM_addrx
    match readULEB cu pos with
    | none => none
    | some (idx, l) =>
      match addrxLookup s e hdr.address_size ctx idx with
      | none => none
      | some v => deliver (.attrUnsigned die attr form v) (pos + l)
  | 0x1f =>  -- DW_FORM_line_strp
    match readFixed e cu pos hdr.offset_size with
    | none => none
    | some w =>
      match stringAt s.debug_line_str w with
      | none => none
      | some str => deliver (.attrString die attr form str) (pos + hdr.offset_size)
  | 0x20 =>  -- DW_FORM_ref_sig8: absolute 64-bit signature, no CU base added
    match readFixed e cu pos 8 with
    | none => none
    | some v => deliver (.attrSignature die attr form v) (pos + 8)
  | 0x21 =>  -- DW_FORM_implicit_const: no bytes, abbrev-baked value as Unsigned
    deliver (.attrUnsigned die attr form ((iconst % (2 ^ 64 : Int)).toNat)) pos
  | 0x25 =>  -- DW_FORM_strx1
    match readFixed e cu pos 1 with
    | none => none
    | some idx =>
      match strxLookup s e hdr.offset_size ctx idx with
      | none => none
      | some str => deliver (.attrString die attr form str) (pos + 1)
  | 0x26 =>  -- DW_FORM_strx2
    match readFixed e cu pos 2 with
    | none => none
    | some idx =>
      match strxLookup s e hdr.offset_size ctx idx with
      | none => none
      | some str => deliver (.attrString die attr form str) (pos + 2)
  | 0x27 =>  -- DW_FORM_strx3
    match readFixed e cu pos 3 with
    | none => none
    | some idx =>
      match strxLookup s e hdr.offset_size ctx idx with
      | none => none
      | some str => deliver (.attrString die attr form str) (pos + 3)
  | 0x28 =>  -- DW_FORM_strx4
    match readFixed e cu pos 4 with
    | none => none
    | some idx =>
      match strxLookup s e hdr.offset_size ctx idx with
      | none => none
      | some str => deliver (.attrString die attr form str) (pos + 4)
  | 0x29 =>  -- DW_FORM_addrx1
    match readFixed e cu pos 1 with
    | none => none
    | some idx =>
      match addrxLookup s e hdr.address_size ctx idx with
      | none => none
      | some v => deliver (.attrUnsigned die attr form v) (pos + 1)
  | 0x2a =>  -- DW_FORM_addrx2
    match readFixed e cu pos 2 with
    | none => none
    | some idx =>
      match addrxLookup s e hdr.address_size ctx idx with
      | none => none
      | some v => deliver (.attrUnsigned die attr form v) (pos + 2)
  | 0x2b =>  -- DW_FORM_addrx3
    match readFixed e cu pos 3 with
    | none => none
    | some idx =>
      match addrxLookup s e hdr.address_size ctx idx with
      | none => none
      | some v => deliver (.attrUnsigned die attr form v) (pos + 3)
  | 0x2c =>  -- DW_FORM_addrx4
    match readFixed e cu pos 4 with
    | none => none
    | some idx =>
      match addrxLookup s e hdr.address_size ctx idx with
      | none => none
      | some v => deliver (.attrUnsigned die attr form v) (pos + 4)
  | _ => none

/-- Decode the attribute list of one DIE in order, threading position
and derived context. -/
def processAttrs (s : DwarfSections) (e : Endian) (hdr : CUHeader) (cu_offset : Nat)
    (cu : List Nat) (die : Nat) :
    List AbbrevAttr → Nat → FormCtx → Option (List DwarfEvent × Nat × FormCtx)
  | [], pos, ctx => some ([], pos, ctx)
  | a :: rest, pos, ctx =>
    match decodeForm s e hdr cu_offset cu ctx die a.attr a.form a.value pos with
    | none => none
    | some (ev, pos1, ctx1) =>
      match processAttrs s e hdr cu_offset cu die rest pos1 ctx1 with
      | none => none
      | some (evs, pos2, ctx2) => some (ev :: evs, pos2, ctx2)

mutual

/-- Process one DIE at relative position `pos` of the CU slice:
StartDIE, its attributes, its children (when the abbreviation says so,
terminated by abbrev code 0), then EndDIE.  DIE offsets reported in
events are absolute within `.debug_info`. -/
def processDIE (s : DwarfSections) (e : Endian) (hdr : CUHeader) (cu_offset : Nat)
    (cu : List Nat) (abbrevs : List DwarfAbbrev) :
    Nat → Nat → FormCtx → Option (List DwarfEvent × Nat × FormCtx)
  | 0, _, _ => none
  | fuel + 1, pos, ctx =>
    match readULEB cu pos with
    | none => none
    | some (code, len) =>
      if code = 0 then none
      else
        match abbrevs.find? (fun a => a.code == code) with
        | none => none
        | some ab =>
          let die := cu_offset + pos
          match processAttrs s e hdr cu_offset cu die ab.attributes (pos + len) ctx with
          | none => none
          | some (attrEvents, pos1, ctx1) =>
            if ab.has_children then
              match processChildren s e hdr cu_offset cu abbrevs fuel pos1 ctx1 with
              | none => none
              | some (childEvents, pos2, ctx2) =>
                some (.startDIE die ab.tag :: attrEvents ++ childEvents ++ [.endDIE die],
                  pos2, ctx2)
            else
              some (.startDIE die ab.tag :: attrEvents ++ [.endDIE die], pos1, ctx1)

/-- Process sibling DIEs until the abbrev-code-0 terminator. -/
def processChildren (s : DwarfSections) (e : Endian) (hdr : CUHeader) (cu_offset : Nat)
    (cu : List Nat) (abbrevs : List DwarfAbbrev) :
    Nat → Nat → FormCtx → Option (List DwarfEvent × Nat × FormCtx)
  | 0, _, _ => none
  | fuel + 1, pos, ctx =>
    match readULEB cu pos with
    | none => none
    | some (code, len) =>
      if code = 0 then some ([], pos + len, ctx)
      else
        match processDIE s e hdr cu_offset cu abbrevs fuel pos ctx with
        | none => none
        | some (evs, pos1, ctx1) =>
          match processChildren s e hdr cu_offset cu abbrevs fuel pos1 ctx1 with
          | none => none
          | some (evs2, pos2, ctx2) => some (evs ++ evs2, pos2, ctx2)

end

/-- Body of CompilationUnit::Start, working on `sec`, the suffix of
`.debug_info` at the CU's start offset (the C++ pointer
`buffer + offset`); `offset` itself is used only for the absolute DIE
offsets of the events and the CU-relative reference adjustment. -/
def dwarfStartOn (s : DwarfSections) (e : Endian) (offset : Nat) (sec : List Nat) :
    List DwarfEvent × Nat :=
  match parseCUHeader e sec with
  | none => ([], 0)
  | some hdr =>
    let total := hdr.lenFieldSize + hdr.unit_length
    let cu := sec.take total
    let startEv := DwarfEvent.startCU offset hdr.address_size hdr.offset_size
      hdr.unit_length hdr.version
    if hdr.version = 5 ∧ hdr.unit_type = 2 then ([startEv], total)
    else
      match parseAbbrevs (s.debug_abbrev.length + 1) s.debug_abbrev hdr.abbrev_offset with
      | none => ([startEv], total)
      | some abbrevs =>
        let ctx0 : FormCtx := ⟨if hdr.offset_size = 8 then 16 else 8,
          if hdr.offset_size = 8 then 16 else 8⟩
        match processDIE s e hdr offset cu abbrevs (cu.length + 1) hdr.header_size ctx0 with
        | none => ([startEv], total)
        | some (evs, _, _) => (startEv :: evs, total)

/-- CompilationUnit::Start (spec 4.1): parse the CU at `offset` within
`.debug_info`, return the emitted handler events and the number of
bytes the caller should skip (initial-length field plus unit length).
A DWARF 5 type unit (unit_type DW_UT_type = 0x02) fires
StartCompilationUnit only and still reports the full CU length.  A
malformed header yields no events and length 0; failures inside the
DIE walk abort the CU after StartCompilationUnit. -/
def dwarfStart (s : DwarfSections) (e : Endian) (offset : Nat) : List DwarfEvent × Nat :=
  dwarfStartOn s e offset (s.debug_info.drop offset)

/-! Concrete fixtures: the byte-level and module-level scenarios of the
repository's unit tests, used by the validation theorems and as
witnesses. -/

/-- Big-endian bytes of a 32-bit value. -/
def be32 (n : Nat) : List Nat :=
  [n / 2 ^ 24 % 256, n / 2 ^ 16 % 256, n / 2 ^ 8 % 256, n % 256]

/-- Big-endian bytes of a 16-bit value. -/
def be16 (n : Nat) : List Nat :=
  [n / 2 ^ 8 % 256, n % 256]

/-- Little-endian bytes of a 32-bit value. -/
def le32 (n : Nat) : List Nat :=
  [n % 256, n / 2 ^ 8 % 256, n / 2 ^ 16 % 256, n / 2 ^ 24 % 256]

/-- Little-endian bytes of a 16-bit value. -/
def le16 (n : Nat) : List Nat :=
  [n % 256, n / 2 ^ 8 % 256]

/-- Little-endian bytes of a 64-bit value. -/
def le64 (n : Nat) : List Nat :=
  [n % 256, n / 2 ^ 8 % 256, n / 2 ^ 16 % 256, n / 2 ^ 24 % 256,
   n / 2 ^ 32 % 256, n / 2 ^ 40 % 256, n / 2 ^ 48 % 256, n / 2 ^ 56 % 256]

/-- ASCII bytes of a string. -/
def asciiBytes (str : String) : List Nat :=
  str.toList.map Char.toNat

/-- The empty default module of most Module unit tests. -/
def moduleFixture : Module :=
  mkModule "name with spaces" "os-name" "architecture" "id-string" "" false false

/-- generate_duplicate_function of module_unittest.cc: fixed address,
range and parameter size, a caller-chosen name. -/
def dupFunc (n : String) : Func :=
  ⟨n, 0xd35402aac7a7ad5c, [⟨0xd35402aac7a7ad5c, 0x200b26e605f99071⟩],
    0xf14ac4fed48c4a99, [], false⟩

/-- A module already holding the first duplicate-range function
(ConstructDuplicateFunctions / ConstructFunctionsWithSameAddress). -/
def sameAddrModule : Module :=
  (addFunction moduleFixture (dupFunc "_without_form")).1

/-- The same scenario with the multiple field enabled. -/
def sameAddrModuleMult : Module :=
  (addFunction (mkModule "name with spaces" "os-name" "architecture" "id-string" "" true false)
    (dupFunc "_without_form")).1

/-- The WriteRelativeLoadAddress module of module_unittest.cc. -/
def relLoadModule : Module :=
  let m := moduleFixture
  let m := findFile m "filename-b.cc"
  let m := findFile m "filename-a.cc"
  let f : Func := ⟨"A_FLIBBERTIJIBBET::a_will_o_the_wisp(a clown)", 0xbec774ea5dd935f3,
    [⟨0xbec774ea5dd935f3, 0x2922088f98d3f6fc⟩], 0xe5e9aa008bd5f0d0,
    [⟨0xdaf35bc123885c04, 0xcf621b8d324d0eb, "filename-a.cc", 67519080⟩,
     ⟨0xbec774ea5dd935f3, 0x1c2be6d6c5af2611, "filename-b.cc", 41676901⟩], false⟩
  let m := (addFunction m f).1
  let m := addStackFrameEntry m ⟨0x30f9e5c83323973d, 0x49fc9ca7c7c13dc2,
    [(".cfa", "he was a handsome man"), ("and", "what i want to know is")],
    [(0x30f9e5c83323973e, [("how", "do you like your blueeyed boy"), ("Mister", "Death")])]⟩
  setLoadAddress m 0x2ab698b0b6407073

/-- The ConstructAddFrames module of module_unittest.cc. -/
def framesModule : Module :=
  let m := moduleFixture
  let m := addStackFrameEntry m ⟨0xddb5f41285aa7757, 0x1486493370dc5073, [], []⟩
  let m := addStackFrameEntry m ⟨0x8064f3af5e067e38, 0x0de2a5ee55509407,
    [(".cfa", "I think that I shall never see"), ("stromboli", "a poem lovely as a tree"),
     ("cannoli", "a tree whose hungry mouth is prest")], []⟩
  addStackFrameEntry m ⟨0x5e8d0db0a7075c6c, 0x1c7edb12a7aea229,
    [(".cfa", "Whose woods are these")],
    [(0x47ceb0f63c269d7f,
        [("calzone", "the village though"), ("cannoli", "he will not see me stopping here")]),
     (0x36682fad3763ffff, [("stromboli", "his house is in"), (".cfa", "I think I know")])]⟩

/-- The ConstructFunctionsAndThumbExternsWithSameAddress module:
externs at 0xabc1, 0xfff1 and 0xcc00, a DWARF function at 0xfff0. -/
def thumbModule : Module :=
  let m := mkModule "name with spaces" "os-name" "arm" "id-string" "" false false
  let m := addExtern m ⟨0xabc1, "thumb_abc", false⟩
  let m := addExtern m ⟨0xfff1, "thumb_xyz", false⟩
  let m := addExtern m ⟨0xcc00, "arm_func", false⟩
  (addFunction m ⟨"_thumb_xyz", 0xfff0, [⟨0xfff0, 0x10⟩], 0, [], false⟩).1

/-- The WriteOutOfRangeAddresses module: allowed range [0x2000,0x3000),
CFI entries at 0x1000/0x2000/0x3000, a function at 0x4000 with a line,
an extern at 0x5000. -/
def outOfRangeModule : Module :=
  let m := setAddressRanges moduleFixture [⟨0x2000, 0x1000⟩]
  let m := addStackFrameEntry m ⟨0x1000, 0x100, [], []⟩
  let m := addStackFrameEntry m ⟨0x2000, 0x100, [], []⟩
  let m := addStackFrameEntry m ⟨0x3000, 0x100, [], []⟩
  let m := findFile m "file_name.cc"
  let m := (addFunction m ⟨"function_name", 0x4000, [⟨0x4000, 0x1000⟩], 0x100,
    [⟨0x4000, 0x100, "file_name.cc", 67519080⟩], false⟩).1
  addExtern m ⟨0x5000, "_xyz", false⟩

/-- The WritePreserveLoadAddress module: load address 0x1337 set before
adding a function, a line and a CFI entry. -/
def preserveModule : Module :=
  let m := setLoadAddress moduleFixture 0x1337
  let m := findFile m "filename-a.cc"
  let m := (addFunction m ⟨"do_stuff", 0x110, [⟨0x110, 0x210⟩], 0x50,
    [⟨0x110, 0x1, "filename-a.cc", 20⟩], false⟩).1
  addStackFrameEntry m ⟨0x200, 0x55, [(".cfa", "some call frame info")],
    [(0x201, [(".s0", "some rules change call frame info")])]⟩

/-- The schematic ARM module of the amended C2 claim: one function at
even address `a`, a Thumb extern at the odd address `a + 1`, and a
second extern at an unrelated odd address `b`. -/
def armMergeModule (a sz ps b : Nat) (fname e1name e2name : String) : Module :=
  { mkModule "name with spaces" "os-name" "arm" "id-string" "" false false with
      functions := [⟨fname, a, [⟨a, sz⟩], ps, [], false⟩],
      externs := [⟨a + 1, e1name, false⟩, ⟨b, e2name, false⟩] }

/-- The RangeList.Dwarf4ReadRangeList section: 14 padding bytes then
big-endian 4-byte pairs (1,2), (MAX,3), (1,2), (0,1), (0,0). -/
def d4RangesSection : List Nat :=
  asciiBytes "padding offset" ++
    be32 1 ++ be32 2 ++ be32 0xFFFFFFFF ++ be32 3 ++ be32 1 ++ be32 2 ++
    be32 0 ++ be32 1 ++ be32 0 ++ be32 0

/-- The DWARF 4 pair sequence written in `d4RangesSection` at offset 14. -/
def d4RangesPairs : List (Nat × Nat) :=
  [(1, 2), (0xFFFFFFFF, 3), (1, 2), (0, 1), (0, 0)]

/-- CURangesInfo of the DWARF 4 range-list test: version 4, CU base
address 1. -/
def d4RangesInfo : CURangesInfo :=
  ⟨4, 1, 0, d4RangesSection, 0, []⟩

/-- First `.debug_rnglists` unit of the Dwarf5ReadRangeList_rnglists
test: header with offset-entry count 2, two offset entries, and two
opcode streams. -/
def rnglistsUnit1 : List Nat :=
  be32 52 ++ be16 5 ++ [4, 0] ++ be32 2 ++
    be32 8 ++ be32 20 ++
    [1, 0] ++ [2, 1, 2] ++ [3, 3, 1] ++ [4, 5, 6] ++ [0] ++
    [5] ++ be32 8 ++ [4, 1, 2] ++ [6] ++ be32 10 ++ be32 11 ++ [7] ++ be32 12 ++ [1] ++ [0]

/-- Second `.debug_rnglists` unit of the same test. -/
def rnglistsUnit2 : List Nat :=
  be32 52 ++ be16 5 ++ [4, 0] ++ be32 2 ++
    be32 8 ++ be32 20 ++
    [1, 0] ++ [2, 1, 2] ++ [3, 3, 1] ++ [4, 5, 6] ++ [0] ++
    [5] ++ be32 15 ++ [4, 1, 2] ++ [6] ++ be32 17 ++ be32 18 ++ [7] ++ be32 19 ++ [1] ++ [0]

/-- The `.debug_addr` contents of the rnglists tests: big-endian 4-byte
entries 0, 1, 2, 3, 4 (a padding entry then the table). -/
def rnglistsAddr : List Nat :=
  be32 0 ++ be32 1 ++ be32 2 ++ be32 3 ++ be32 4

/-- CURangesInfo for the first rnglists unit (ranges base 12, the start
of its offset-entry table; addr base 4). -/
def rnglistsInfo1 : CURangesInfo :=
  ⟨5, 1, 12, rnglistsUnit1 ++ rnglistsUnit2, 4, rnglistsAddr⟩

/-- CURangesInfo for the second rnglists unit (ranges base 68). -/
def rnglistsInfo2 : CURangesInfo :=
  ⟨5, 1, 68, rnglistsUnit1 ++ rnglistsUnit2, 4, rnglistsAddr⟩

/-- The `.debug_info` and `.debug_abbrev` of the DwarfHeader.Header
test (little endian, 32-bit format, version 4, address size 8): one
DW_TAG_compile_unit DIE with a DW_AT_name / DW_FORM_string "sam". -/
def headerTestSections : DwarfSections :=
  ⟨le32 13 ++ le16 4 ++ le32 0 ++ [8] ++ [1] ++ asciiBytes "sam" ++ [0] ++ [0],
    [1, 0x11, 1, 0x03, 0x08, 0, 0, 0], [], [], [], []⟩

/-- The DwarfHeader.TypeUnitHeader test sections (little endian, 32-bit
format, version 5, unit type DW_UT_type, address size 4): a
DW_TAG_type_unit DIE that must be skipped. -/
def typeUnitSections : DwarfSections :=
  ⟨le32 14 ++ le16 5 ++ [2] ++ [4] ++ le32 0 ++ [1] ++ asciiBytes "sam" ++ [0] ++ [0],
    [1, 0x41, 1, 0x03, 0x08, 0, 0, 0], [], [], [], []⟩

/-- Abbrev table of the ref_sig8 tests: one childless DIE with a single
attribute 0x49 of form DW_FORM_ref_sig8. -/
def refSig8Abbrevs : List Nat :=
  [1, 0x2b, 0, 0x49, 0x20, 0, 0, 0]

/-- A little-endian 32-bit-format version-4 CU whose single childless
DIE carries one DW_FORM_ref_sig8 attribute with the given 8 value
bytes. -/
def refSig8CU (sig : List Nat) : List Nat :=
  le32 16 ++ le16 4 ++ le32 0 ++ [4] ++ [1] ++ sig

/-- Sections placing `refSig8CU` after an arbitrary prefix, as in the
ref_sig8_not_first test (there: 98 bytes of padding). -/
def refSig8Sections (junk : List Nat) (sig : List Nat) : DwarfSections :=
  ⟨junk ++ refSig8CU sig, refSig8Abbrevs, [], [], [], []⟩

end Breakpad



namespace Breakpad

set_option maxRecDepth 40000

/-! Model-validation theorems: the embedded Module writer and DWARF
reader reproduce, bit for bit, the expected outputs asserted by the
repository's unit tests. -/

/-- Module::Write output of the WriteRelativeLoadAddress scenario. -/
theorem modelCheck_writeRelativeLoadAddress :
    write relLoadModule false =
      "MODULE os-name architecture id-string name with spaces\n" ++
      "FILE 0 filename-a.cc\n" ++
      "FILE 1 filename-b.cc\n" ++
      "FUNC 9410dc39a798c580 2922088f98d3f6fc e5e9aa008bd5f0d0" ++
      " A_FLIBBERTIJIBBET::a_will_o_the_wisp(a clown)\n" ++
      "b03cc3106d47eb91 cf621b8d324d0eb 67519080 0\n" ++
      "9410dc39a798c580 1c2be6d6c5af2611 41676901 1\n" ++
      "STACK CFI INIT 6434d177ce326ca 49fc9ca7c7c13dc2" ++
      " .cfa: he was a handsome man and: what i want to know is\n" ++
      "STACK CFI 6434d177ce326cb Mister: Death how: do you like your blueeyed boy\n" := by
  decide

/-- Module::Write output of the ConstructAddFrames scenario. -/
theorem modelCheck_constructAddFrames :
    write framesModule false =
      "MODULE os-name architecture id-string name with spaces\n" ++
      "STACK CFI INIT ddb5f41285aa7757 1486493370dc5073 \n" ++
      "STACK CFI INIT 8064f3af5e067e38 de2a5ee55509407" ++
      " .cfa: I think that I shall never see" ++
      " cannoli: a tree whose hungry mouth is prest" ++
      " stromboli: a poem lovely as a tree\n" ++
      "STACK CFI INIT 5e8d0db0a7075c6c 1c7edb12a7aea229 .cfa: Whose woods are these\n" ++
      "STACK CFI 36682fad3763ffff .cfa: I think I know stromboli: his house is in\n" ++
      "STACK CFI 47ceb0f63c269d7f calzone: the village though" ++
      " cannoli: he will not see me stopping here\n" := by
  decide

/-- Module::Write output of the WriteOutOfRangeAddresses scenario. -/
theorem modelCheck_writeOutOfRangeAddresses :
    write outOfRangeModule false =
      "MODULE os-name architecture id-string name with spaces\n" ++
      "STACK CFI INIT 2000 100 \n" := by
  decide

/-- Module::Write output of the WritePreserveLoadAddress scenario. -/
theorem modelCheck_writePreserveLoadAddress :
    write preserveModule true =
      "MODULE os-name architecture id-string name with spaces\n" ++
      "FILE 0 filename-a.cc\n" ++
      "FUNC 110 210 50 do_stuff\n" ++
      "110 1 20 0\n" ++
      "STACK CFI INIT 200 55 .cfa: some call frame info\n" ++
      "STACK CFI 201 .s0: some rules change call frame info\n" := by
  decide

/-- Module::Write output of ConstructFunctionsWithSameAddress: both
same-address functions are retained and emitted, ordered by name. -/
theorem modelCheck_constructFunctionsWithSameAddress :
    (addFunction sameAddrModule (dupFunc "_and_void")).2 = true ∧
    write (addFunction sameAddrModule (dupFunc "_and_void")).1 false =
      "MODULE os-name architecture id-string name with spaces\n" ++
      "FUNC d35402aac7a7ad5c 200b26e605f99071 f14ac4fed48c4a99 _and_void\n" ++
      "FUNC d35402aac7a7ad5c 200b26e605f99071 f14ac4fed48c4a99 _without_form\n" := by
  decide

/-- ConstructFunctionsWithSameAddressMultiple: with the multiple field
enabled the second function is rejected and the survivor is marked m. -/
theorem modelCheck_constructFunctionsWithSameAddressMultiple :
    (addFunction sameAddrModuleMult (dupFunc "_and_void")).2 = false ∧
    write (addFunction sameAddrModuleMult (dupFunc "_and_void")).1 false =
      "MODULE os-name architecture id-string name with spaces\n" ++
      "FUNC m d35402aac7a7ad5c 200b26e605f99071 f14ac4fed48c4a99 _without_form\n" := by
  decide

/-- Write output of the Thumb extern/function scenario. -/
theorem modelCheck_thumbExterns :
    write thumbModule false =
      "MODULE os-name arm id-string name with spaces\n" ++
      "FUNC fff0 10 0 _thumb_xyz\n" ++
      "PUBLIC abc1 0 thumb_abc\n" ++
      "PUBLIC cc00 0 arm_func\n" := by
  decide

/-- The DWARF 4 range-list scenario of RangeList.Dwarf4ReadRangeList. -/
theorem modelCheck_dwarf4RangeList :
    readRanges .big 4 4 d4RangesInfo 0x17 14 =
      (true, [.addRange 2 3, .addRange 4 5, .addRange 3 4, .finish]) := by
  decide

/-- The DWARF 5 rnglistx scenarios of RangeList.Dwarf5ReadRangeList. -/
theorem modelCheck_dwarf5Rnglistx :
    readRanges .big 4 4 rnglistsInfo1 0x23 0 =
      (true, [.addRange 2 3, .addRange 4 5, .addRange 6 7, .finish]) ∧
    readRanges .big 4 4 rnglistsInfo1 0x23 1 =
      (true, [.addRange 9 10, .addRange 10 11, .addRange 12 13, .finish]) ∧
    readRanges .big 4 4 rnglistsInfo1 0x23 2 = (false, []) ∧
    readRanges .big 4 4 rnglistsInfo2 0x23 0 =
      (true, [.addRange 2 3, .addRange 4 5, .addRange 6 7, .finish]) ∧
    readRanges .big 4 4 rnglistsInfo2 0x23 1 =
      (true, [.addRange 16 17, .addRange 17 18, .addRange 19 20, .finish]) := by
  decide

/-- The DwarfHeader.Header scenario: one compile-unit DIE with a
string attribute, all callbacks in preorder. -/
theorem modelCheck_dwarfHeader :
    dwarfStart headerTestSections .little 0 =
      ([.startCU 0 8 4 13 4, .startDIE 11 0x11, .attrString 11 0x03 0x08 "sam",
        .endDIE 11], 17) := by
  decide

/-- The ref_sig8_not_first scenario: the signature read from a CU
starting at offset 98 is the encoded value, unadjusted. -/
theorem modelCheck_refSig8NotFirst :
    dwarfStart (refSig8Sections (List.replicate 98 42) (le64 0xf72fa0cb6ddcf9d6)) .little 98 =
      ([.startCU 98 4 4 16 4, .startDIE 109 0x2b,
        .attrSignature 109 0x49 0x20 0xf72fa0cb6ddcf9d6, .endDIE 109], 20) := by
  decide

end Breakpad

namespace Breakpad

/-! Claim C3: the amd64 canonicality test and fault-address recovery. -/

/-- Bit `s` of `a` as the 0/1 value the C++ shift-and-mask computes. -/
theorem shift_and_one (a s : Nat) : (a >>> s) &&& 1 = if a.testBit s then 1 else 0 := by
  rw [Nat.testBit_to_div_mod, Nat.and_one_is_mod, Nat.shiftRight_eq_div_pow]
  rcases Nat.mod_two_eq_zero_or_one (a / 2 ^ s) with h | h <;> simp [h]

/-- C3 counterexample: at address `2^47` (bit 47 set, bits 48..63
clear) `IsCanonicalAddress` returns true although bits 47 through 63
are not all equal, so the claimed characterisation "canonical iff bits
47..63 all equal" is false: the code never examines bit 47. -/
theorem c3_counterexample :
    isCanonicalAddress 0x800000000000 = true ∧
    ¬ (∀ i, 47 ≤ i → i ≤ 63 →
        Nat.testBit 0x800000000000 i = Nat.testBit 0x800000000000 63) := by
  refine ⟨by decide, fun h => ?_⟩
  have h47 := h 47 (by norm_num) (by norm_num)
  exact absurd h47 (by decide)

/-- C3 as amended: `IsCanonicalAddress` returns true iff bits 48
through 63 of the address are all equal (bit 47 is not examined); the
recovery replaces the fault address only by a computed effective
address that is non-canonical under this test, and when both computed
addresses are valid and non-canonical the larger one is chosen. -/
theorem c3_amended (a orig read_address write_address : Nat) (valid_read valid_write : Bool) :
    (isCanonicalAddress a = true ↔
      ∀ i, 48 ≤ i → i ≤ 63 → a.testBit i = a.testBit 63) ∧
    (calculateFaultAddress orig valid_read read_address valid_write write_address ≠ orig →
      isCanonicalAddress
          (calculateFaultAddress orig valid_read read_address valid_write write_address) =
        false ∧
      (calculateFaultAddress orig valid_read read_address valid_write write_address =
          read_address ∨
       calculateFaultAddress orig valid_read read_address valid_write write_address =
          write_address)) ∧
    (valid_read = true → valid_write = true →
      isCanonicalAddress read_address = false → isCanonicalAddress write_address = false →
      calculateFaultAddress orig valid_read read_address valid_write write_address =
        max read_address write_address) := by
  refine ⟨?_, ?_, ?_⟩
  · unfold isCanonicalAddress
    rw [List.all_eq_true]
    constructor
    · intro h i h48 h63
      rcases Nat.eq_or_lt_of_le h63 with h63e | h63lt
      · simp [h63e]
      · have hmem : i ∈ List.range' 48 15 := by
          rw [List.mem_range'_1]
          omega
        have hb' : (a >>> 63) &&& 1 = (a >>> i) &&& 1 := by
          simpa using h i hmem
        rw [shift_and_one, shift_and_one] at hb'
        by_cases hi : a.testBit i <;> by_cases h63b : a.testBit 63 <;>
          simp [hi, h63b] at hb' ⊢
    · intro h i hmem
      rw [List.mem_range'_1] at hmem
      have hb := h i (by omega) (by omega)
      have : (a >>> 63) &&& 1 = (a >>> i) &&& 1 := by
        rw [shift_and_one, shift_and_one, hb]
      simpa using this
  · intro hne
    unfold calculateFaultAddress at hne ⊢
    rcases hr : valid_read && !isCanonicalAddress read_address with _ | _ <;>
      rcases hw : valid_write && !isCanonicalAddress write_address with _ | _ <;>
        simp only [hr, hw, Bool.and_self, Bool.and_false, Bool.false_and, Bool.and_true,
          Bool.true_and, if_true, if_false, Bool.false_eq_true, not_true,
          not_false_iff] at hne ⊢
    · exact absurd rfl hne
    · rw [Bool.and_eq_true] at hw
      exact ⟨by simpa using hw.2, Or.inr trivial⟩
    · rw [Bool.and_eq_true] at hr
      exact ⟨by simpa using hr.2, Or.inl trivial⟩
    · rw [Bool.and_eq_true] at hr hw
      split
      · exact ⟨by simpa using hr.2, Or.inl rfl⟩
      · exact ⟨by simpa using hw.2, Or.inr rfl⟩
  · intro h1 h2 h3 h4
    subst h1; subst h2
    unfold calculateFaultAddress
    simp only [h3, h4, Bool.not_false, Bool.and_self, if_true]
    split <;> omega

end Breakpad

namespace Breakpad

/-- Witness for the amended C3 at concrete inputs: both computed
addresses are non-canonical, so the larger one is chosen. -/
theorem c3_amended_witness :
    calculateFaultAddress 7 true 0xdead00000000dead true 0xfeed00000000feed =
      max 0xdead00000000dead 0xfeed00000000feed :=
  (c3_amended 0 7 0xdead00000000dead 0xfeed00000000feed true true).2.2 rfl rfl
    (by decide) (by decide)

/-! Claim C4: the Linux SIGSEGV crash-reason string. -/

/-- C4 failing input: for a Linux/Android SIGSEGV with SEGV_MAPERR the
code produces "SIGSEGV /SEGV_MAPERR" - the space between the slash and
the flag mnemonic required by the documented "<CODE> / <FLAGS>" format
is missing (minidump_processor.cc:1801 initializes the reason with
"SIGSEGV /" while every sibling case uses "... / "). -/
theorem c4_sigsegv_missing_space :
    getCrashReasonLinux 11 1 = "SIGSEGV /SEGV_MAPERR" ∧
    getCrashReasonLinux 11 1 ≠ "SIGSEGV / SEGV_MAPERR" := by
  exact ⟨rfl, by decide⟩

/-! Claim C1: AddFunction deduplication. -/

/-- C1 counterexample: the second function has ranges pairwise equal to
an already-added function but a different name; AddFunction returns
true and the function collection changes, so "identical ranges reject
regardless of name" is false on the code (the repository's
ConstructFunctionsWithSameAddress test asserts exactly this). -/
theorem c1_counterexample :
    (dupFunc "_and_void").ranges = (dupFunc "_without_form").ranges ∧
    dupFunc "_without_form" ∈ sameAddrModule.functions ∧
    (addFunction sameAddrModule (dupFunc "_and_void")).2 = true ∧
    (addFunction sameAddrModule (dupFunc "_and_void")).1.functions ≠
      sameAddrModule.functions := by
  exact ⟨rfl, by decide, by decide, by decide⟩

/-- C1 as amended: with the multiple field disabled (and no extern
renaming), AddFunction rejects exactly when an already-added function
has the same primary address AND the same name, leaving the module
unchanged; otherwise the function is inserted and true is returned, so
functions with identical ranges but different names are both
retained. -/
theorem c1_amended (m : Module) (f : Func)
    (hmult : m.enable_multiple_field = false) (hpref : m.prefer_extern_name = false)
    (hne : f.name ≠ "") :
    ((∃ g ∈ m.functions, g.address = f.address ∧ g.name = f.name) →
      addFunction m f = (m, false)) ∧
    (m.functions.any (fun g => g.address == f.address && g.name == f.name) = false →
      addFunction m f = ({ m with functions := insertFunc m.functions f }, true)) := by
  have hname : (f.name == "") = false := by simp [hne]
  constructor
  · rintro ⟨g, hmem, haddr, hn⟩
    have hany : m.functions.any (fun g => g.address == f.address && g.name == f.name) = true :=
      List.any_eq_true.mpr ⟨g, hmem, by simp [haddr, hn]⟩
    unfold addFunction
    simp [hname, hpref, hmult, hany]
  · intro hany
    unfold addFunction
    simp [hname, hpref, hmult, hany]

/-- Witness for the amended C1: re-adding the identical function is
rejected and the module is unchanged. -/
theorem c1_amended_witness :
    addFunction sameAddrModule (dupFunc "_without_form") = (sameAddrModule, false) :=
  (c1_amended sameAddrModule (dupFunc "_without_form") (by decide) (by decide)
    (by decide)).1 ⟨dupFunc "_without_form", by decide, rfl, rfl⟩

/-! Claim C10: the trailing space of an empty-rules STACK CFI INIT
record. -/

/-- C10: a CFI entry with an empty initial-rules map, inside the
allowed address ranges, is written as "STACK CFI INIT <addr> <size> "
with a single trailing space before the newline. -/
theorem c10_cfi_trailing_space (m : Module) (load : Nat) (entry : StackFrameEntry)
    (hmem : entry ∈ m.stack_frame_entries) (hrules : entry.initial_rules = [])
    (hin : addressIsInModule m entry.address = true) :
    SymRecord.cfiInitRec (sub64 entry.address load) entry.size [] ∈ writeRecordsWith m load ∧
    renderRecord (SymRecord.cfiInitRec (sub64 entry.address load) entry.size []) =
      "STACK CFI INIT " ++ toHex (sub64 entry.address load) ++ " " ++
        toHex entry.size ++ " \n" := by
  constructor
  · have hflat : SymRecord.cfiInitRec (sub64 entry.address load) entry.size [] ∈
        (m.stack_frame_entries.filter fun e => addressIsInModule m e.address).flatMap
          (cfiRecords load) := by
      rw [List.mem_flatMap]
      refine ⟨entry, List.mem_filter.mpr ⟨hmem, hin⟩, ?_⟩
      unfold cfiRecords
      rw [hrules]
      exact List.mem_cons_self _ _
    unfold writeRecordsWith
    simp only [List.mem_cons, List.mem_append]
    tauto
  · show "STACK CFI INIT " ++ toHex (sub64 entry.address load) ++ " " ++
        toHex entry.size ++ " " ++ renderRules [] ++ "\n" = _
    rw [show renderRules [] = "" from rfl, String.append_empty, String.append_assoc,
      show (" " ++ "\n" : String) = " \n" from rfl]

/-- Witness for C10 at the first ConstructAddFrames entry. -/
theorem c10_witness :
    SymRecord.cfiInitRec 0xddb5f41285aa7757 0x1486493370dc5073 [] ∈
      writeRecordsWith framesModule 0 := by
  have h2 : sub64 0xddb5f41285aa7757 0 = 0xddb5f41285aa7757 := by decide
  have h := (c10_cfi_trailing_space framesModule 0
    ⟨0xddb5f41285aa7757, 0x1486493370dc5073, [], []⟩ (by decide) rfl (by decide)).1
  simpa only [h2] using h

end Breakpad

namespace Breakpad

/-! Claim C2: ARM Thumb externs versus DWARF functions. -/

/-- In 64-bit arithmetic, subtracting a zero load address is the
identity on values below 2^64. -/
theorem sub64_zero {x : Nat} (h : x < 2 ^ 64) : sub64 x 0 = x := by
  unfold sub64
  rw [Nat.zero_mod, Nat.sub_zero, Nat.add_mod_right, Nat.mod_eq_of_lt h,
    Nat.mod_eq_of_lt h]

/-- C2 counterexample: in the Thumb scenario of the repository's own
test (externs at 0xabc1, 0xfff1, 0xcc00; DWARF function at 0xfff0),
Write emits the FUNC record at the even address but does NOT emit the
PUBLIC record at the odd address 0xfff1, contradicting "emits both
records unchanged". -/
theorem c2_counterexample :
    (writeRecords thumbModule false).contains
      (SymRecord.funcRec false 0xfff0 0x10 0 "_thumb_xyz") = true ∧
    ((writeRecords thumbModule false).any fun r =>
      match r with
      | SymRecord.publicRec _ addr _ => addr == 0xfff1
      | _ => false) = false := by
  exact ⟨by decide, by decide⟩

/-- C2 as amended, over a schematic ARM module with a function at an
even address `a`, a Thumb extern at `a + 1` and an unrelated Thumb
extern at `b`: the writer emits the FUNC record at `a` unchanged, emits
no PUBLIC for the extern whose Thumb-stripped address matches the
function, and emits the unrelated Thumb extern as a PUBLIC at its odd
address unchanged. -/
theorem c2_amended (a sz ps b : Nat) (fname e1name e2name : String)
    (ha : a % 2 = 0) (ha64 : a < 2 ^ 64) (hb : b % 2 = 1) (hbne : b - 1 ≠ a)
    (hb64 : b < 2 ^ 64) :
    writeRecords (armMergeModule a sz ps b fname e1name e2name) false =
      [SymRecord.moduleRec "os-name" "arm" "id-string" "name with spaces",
       SymRecord.funcRec false a sz ps fname,
       SymRecord.publicRec false b e2name] := by
  have h1 : stripThumb "arm" (a + 1) = a := by
    unfold stripThumb
    simp only [beq_self_eq_true, if_true]
    omega
  have h2 : stripThumb "arm" b = b - 1 := by
    unfold stripThumb
    simp only [beq_self_eq_true, if_true]
    omega
  have h5 : (a == b - 1) = false := beq_eq_false_iff_ne.mpr (Ne.symm hbne)
  unfold writeRecords writeRecordsWith armMergeModule mkModule effectiveLoad
  simp [externEmitted, addressIsInModule, funcRangeRecords, funcIsMultiple, usedFiles,
    citedFiles, sortStrings, cfiRecords, h1, h2, h5, sub64_zero ha64, sub64_zero hb64]

/-- Witness for the amended C2 at the unit test's concrete values. -/
theorem c2_amended_witness :
    writeRecords (armMergeModule 0xfff0 0x10 0 0xabc1 "_thumb_xyz" "thumb_xyz" "thumb_abc")
        false =
      [SymRecord.moduleRec "os-name" "arm" "id-string" "name with spaces",
       SymRecord.funcRec false 0xfff0 0x10 0 "_thumb_xyz",
       SymRecord.publicRec false 0xabc1 "thumb_abc"] :=
  c2_amended 0xfff0 0x10 0 0xabc1 "_thumb_xyz" "thumb_xyz" "thumb_abc"
    (by decide) (by decide) (by decide) (by decide) (by decide)

end Breakpad

namespace Breakpad

/-! Claim C5: load-address relocation. -/

/-- Subtracting load 0 and then `l` equals subtracting `l` directly. -/
theorem sub64_sub64_zero (x l : Nat) : sub64 (sub64 x 0) l = sub64 x l := by
  unfold sub64
  have h : (2 : Nat) ^ 64 = 18446744073709551616 := by norm_num
  rw [h]
  omega

/-- Mapping over a flatMap maps over each piece. -/
theorem map_flatMap_piecewise {α β γ : Type} (xs : List α) (g : α → List β) (h : β → γ) :
    (xs.flatMap g).map h = xs.flatMap fun a => (g a).map h := by
  induction xs with
  | nil => rfl
  | cons x xs ih => simp [List.flatMap_cons, ih]

/-- The FUNC/line records of a function under load `l` are the load-0
records with `l` subtracted from every address field. -/
theorem funcRangeRecords_reloc (m : Module) (l : Nat) (f : Func) :
    ∀ (rs : List Range) (ls : List Line),
      funcRangeRecords m l f rs ls = (funcRangeRecords m 0 f rs ls).map (relocRecord l) := by
  intro rs
  induction rs with
  | nil => intro ls; rfl
  | cons r rs ih =>
    intro ls
    simp only [funcRangeRecords, List.map_cons, List.map_append, List.map_map]
    refine congrArg₂ (· :: ·) ?_ (congrArg₂ (· ++ ·) ?_ (ih _))
    · simp [relocRecord, sub64_sub64_zero]
    · refine (List.map_congr_left fun li _ => ?_).symm
      simp [relocRecord, sub64_sub64_zero, Function.comp]

/-- The CFI records of an entry under load `l` are the load-0 records
with `l` subtracted from the INIT and delta-row addresses. -/
theorem cfiRecords_reloc (l : Nat) (entry : StackFrameEntry) :
    cfiRecords l entry = (cfiRecords 0 entry).map (relocRecord l) := by
  simp only [cfiRecords, List.map_cons, List.map_map]
  refine congrArg₂ (· :: ·) ?_ ?_
  · simp [relocRecord, sub64_sub64_zero]
  · refine (List.map_congr_left fun c _ => ?_).symm
    simp [relocRecord, sub64_sub64_zero, Function.comp]

/-- The writer's record stream under load `l` is the load-0 stream with
`l` subtracted from every emitted address (function addresses, line
start addresses, PUBLIC addresses, CFI INIT and delta addresses);
filtering, ordering, sizes and every other field are untouched. -/
theorem writeRecordsWith_reloc (m : Module) (l : Nat) :
    writeRecordsWith m l = (writeRecordsWith m 0).map (relocRecord l) := by
  unfold writeRecordsWith
  rw [List.map_append, List.map_append, List.map_append, List.map_append, List.map_cons]
  refine congrArg₂ (· ++ ·) ?_ ?_
  · refine congrArg₂ (· ++ ·) ?_ ?_
    · refine congrArg₂ (· ++ ·) ?_ ?_
      · refine congrArg₂ (· ++ ·) ?_ ?_
        · refine congrArg₂ (· :: ·) rfl ?_
          split <;> rfl
        · rw [List.map_map]
          exact (List.map_congr_left fun p _ => rfl).symm
      · rw [map_flatMap_piecewise]
        exact congrArg _ (funext fun f => funcRangeRecords_reloc m l f f.ranges f.lines)
    · rw [List.map_map]
      refine (List.map_congr_left fun e _ => ?_).symm
      simp [relocRecord, sub64_sub64_zero, Function.comp]
  · rw [map_flatMap_piecewise]
    exact congrArg _ (funext fun entry => cfiRecords_reloc l entry)

/-- Writing under a given load address does not depend on the module's
stored `load_address` field: the FUNC/line records of a function are
unchanged by SetLoadAddress. -/
theorem funcRangeRecords_setLoad (m : Module) (x load : Nat) (f : Func) :
    ∀ (rs : List Range) (ls : List Line),
      funcRangeRecords (setLoadAddress m x) load f rs ls = funcRangeRecords m load f rs ls := by
  intro rs
  induction rs with
  | nil => intro ls; rfl
  | cons r rs ih =>
    intro ls
    simp only [funcRangeRecords, ih]
    rfl

/-- SetLoadAddress changes no field the writer reads besides the load
address itself, which `writeRecordsWith` receives separately. -/
theorem writeRecordsWith_setLoad (m : Module) (x load : Nat) :
    writeRecordsWith (setLoadAddress m x) load = writeRecordsWith m load := by
  unfold writeRecordsWith
  refine congrArg₂ (· ++ ·) (congrArg₂ (· ++ ·) (congrArg₂ (· ++ ·)
    (congrArg₂ (· ++ ·) rfl rfl) ?_) rfl) rfl
  exact congrArg₂ List.flatMap rfl
    (funext fun f => funcRangeRecords_setLoad m x load f f.ranges f.lines)

/-- C5: SetLoadAddress(L) followed by Write produces exactly the
records of a baseline Write with load 0 in which every emitted address
is decreased (in 64-bit arithmetic) by L, with sizes and all other
fields unchanged; at the string level the output is the rendering of
those relocated records; and with preserve_load_address the baseline
output is emitted despite the SetLoadAddress call. -/
theorem c5_load_relocation (m : Module) (L : Nat) :
    writeRecords (setLoadAddress m L) false =
      (writeRecords (setLoadAddress m 0) false).map (relocRecord L) ∧
    write (setLoadAddress m L) false =
      String.join (((writeRecords (setLoadAddress m 0) false).map (relocRecord L)).map
        renderRecord) ∧
    write (setLoadAddress m L) true = write (setLoadAddress m 0) false := by
  have hL : writeRecords (setLoadAddress m L) false = writeRecordsWith m L :=
    writeRecordsWith_setLoad m L L
  have h0 : writeRecords (setLoadAddress m 0) false = writeRecordsWith m 0 :=
    writeRecordsWith_setLoad m 0 0
  have hT : writeRecords (setLoadAddress m L) true = writeRecordsWith m 0 :=
    writeRecordsWith_setLoad m L 0
  have h1 : writeRecords (setLoadAddress m L) false =
      (writeRecords (setLoadAddress m 0) false).map (relocRecord L) := by
    rw [hL, h0]
    exact writeRecordsWith_reloc m L
  refine ⟨h1, ?_, ?_⟩
  · exact congrArg (fun rs => String.join (rs.map renderRecord)) h1
  · unfold write
    rw [hT, h0]

end Breakpad

namespace Breakpad

/-! Claim C6: DWARF 5 type units are skipped. -/

/-- C6: for every section whose CU header at `offset` parses to
version 5 with unit_type DW_UT_type (0x02), Start emits exactly one
StartCompilationUnit event - no StartDIE, attribute or EndDIE callback -
and still returns the full CU length (initial-length field plus unit
length) so the caller can advance to the next CU. -/
theorem c6_type_unit_skip (s : DwarfSections) (e : Endian) (offset : Nat) (hdr : CUHeader)
    (hparse : parseCUHeader e (s.debug_info.drop offset) = some hdr)
    (hv : hdr.version = 5) (ht : hdr.unit_type = 2) :
    dwarfStart s e offset =
      ([DwarfEvent.startCU offset hdr.address_size hdr.offset_size hdr.unit_length 5],
        hdr.lenFieldSize + hdr.unit_length) := by
  unfold dwarfStart dwarfStartOn
  rw [hparse]
  simp [hv, ht]

/-- Witness for C6 on the TypeUnitHeader test bytes. -/
theorem c6_witness :
    dwarfStart typeUnitSections .little 0 = ([DwarfEvent.startCU 0 4 4 14 5], 18) := by
  have h := c6_type_unit_skip typeUnitSections .little 0 ⟨4, 4, 14, 5, 2, 0, 4, 12⟩
    (by decide) rfl rfl
  simpa using h

/-! Claim C8: the DWARF 4 range-list walk reproduces the source pair
sequence. -/

/-- The code-side DWARF 4 walk agrees with the spec-side emission of
the decoded pair sequence: whenever the pairs at `pos` decode (within
the given fuel) to `ps`, the walk succeeds and emits exactly
`specDwarf4Ranges` of `ps`. -/
theorem readDebugRanges_spec (e : Endian) (addr_size : Nat) (buf : List Nat) :
    ∀ (fuel pos base : Nat) (ps : List (Nat × Nat)),
      decodePairs e addr_size buf fuel pos = some ps →
      readDebugRanges e addr_size buf fuel pos base =
        (true, specDwarf4Ranges addr_size base ps) := by
  intro fuel
  induction fuel with
  | zero => intro pos base ps h; exact absurd h (by simp [decodePairs])
  | succ fuel ih =>
    intro pos base ps h
    rw [decodePairs] at h
    rw [readDebugRanges]
    rcases h1 : readFixed e buf pos addr_size with _ | a <;> rw [h1] at h
    · exact absurd h (by simp)
    rcases h2 : readFixed e buf (pos + addr_size) addr_size with _ | b <;> rw [h2] at h
    · exact absurd h (by simp)
    simp only at h ⊢
    by_cases hz : a = 0 ∧ b = 0
    · rw [if_pos hz] at h ⊢
      cases h
      simp [specDwarf4Ranges]
    · rw [if_neg hz] at h ⊢
      rcases h3 : decodePairs e addr_size buf fuel (pos + 2 * addr_size) with _ | ps2 <;>
        rw [h3] at h
      · exact absurd h (by simp)
      cases h
      by_cases hm : a = maxWord addr_size
      · rw [if_pos hm, ih _ _ _ h3]
        conv_rhs => rw [specDwarf4Ranges]
        rw [if_neg hz, if_pos hm]
      · rw [if_neg hm, ih _ _ _ h3]
        conv_rhs => rw [specDwarf4Ranges]
        rw [if_neg hz, if_neg hm]

/-- C8: a ReadRanges call on a DWARF 4 `.debug_ranges` list whose pair
sequence at the given offset decodes to `ps` succeeds and emits
AddRange(base + a, base + b) for each non-sentinel pair in source order
(out-of-order pairs included, as-is), never emits the (MAX, v)
base-reset pairs, terminates at (0,0) and finishes with Finish. -/
theorem c8_dwarf4_ranges (e : Endian) (addr_size offset_size : Nat) (info : CURangesInfo)
    (data : Nat) (ps : List (Nat × Nat)) (hver : info.version ≤ 4)
    (hdec : decodePairs e addr_size info.buffer (info.buffer.length + 1) data = some ps) :
    readRanges e addr_size offset_size info 0x17 data =
      (true, specDwarf4Ranges addr_size info.base_address ps) := by
  unfold readRanges
  rw [if_pos rfl, if_pos hver]
  exact readDebugRanges_spec e addr_size info.buffer _ data info.base_address ps hdec

/-- Witness for C8 on the Dwarf4ReadRangeList bytes: base 1, pairs
(1,2) (MAX,3) (1,2) (0,1) (0,0) produce AddRange 2 3; 4 5; 3 4;
Finish. -/
theorem c8_witness :
    readRanges .big 4 4 d4RangesInfo 0x17 14 =
      (true, [REvent.addRange 2 3, REvent.addRange 4 5, REvent.addRange 3 4,
        REvent.finish]) := by
  have h := c8_dwarf4_ranges .big 4 4 d4RangesInfo 14 d4RangesPairs (by decide) (by decide)
  rw [h]
  decide

/-! Claim C9: out-of-bounds range-list references fail without
callbacks. -/

/-- C9: a ReadRanges call whose sec_offset lies at or beyond the end of
the range-list section, or whose rnglistx index is not below the CU's
offset-entry count, returns false and emits no AddRange or Finish
event. -/
theorem c9_bounds_no_callbacks (e : Endian) (addr_size offset_size : Nat)
    (info : CURangesInfo) (data count : Nat) :
    (0 < addr_size → info.buffer.length ≤ data →
      readRanges e addr_size offset_size info 0x17 data = (false, [])) ∧
    (readFixed e info.buffer (info.ranges_base - 4) 4 = some count → count ≤ data →
      readRanges e addr_size offset_size info 0x23 data = (false, [])) := by
  constructor
  · intro hpos hlen
    unfold readRanges
    rw [if_pos rfl]
    split
    · rw [readDebugRanges]
      have : readFixed e info.buffer data addr_size = none := by
        unfold readFixed readBytes
        rw [if_neg (by omega)]
        rfl
      rw [this]
    · rw [readDebugRngList]
      have : info.buffer.get? data = none := by
        rw [List.get?_eq_none]
        exact hlen
      rw [this]
  · intro hcount hle
    unfold readRanges
    rw [if_neg (by norm_num), if_pos rfl, hcount]
    exact if_neg (by omega)

/-- Witness for C9: the out-of-table rnglistx index 2 of the
Dwarf5ReadRangeList test and a sec_offset at the section end both fail
without events. -/
theorem c9_witness :
    readRanges .big 4 4 rnglistsInfo1 0x23 2 = (false, []) ∧
    readRanges .big 4 4 d4RangesInfo 0x17 54 = (false, []) := by
  constructor
  · exact (c9_bounds_no_callbacks .big 4 4 rnglistsInfo1 2 2).2 (by decide) (by decide)
  · exact (c9_bounds_no_callbacks .big 4 4 d4RangesInfo 54 0).1 (by decide) (by decide)

end Breakpad

namespace Breakpad

/-! Claim C7: ref_sig8 signatures are absolute. -/

set_option maxHeartbeats 800000 in
/-- C7: for every CU start offset (every prefix `junk` of the section)
and every 8 encoded signature bytes, the DW_FORM_ref_sig8 attribute is
delivered to the Signature callback as exactly the 64-bit little-endian
value of those bytes: the CU start offset appears in the DIE offsets of
the events but not in the delivered signature, so the decoder adds no
CU-base adjustment and the signature is independent of where the CU
starts in `.debug_info`. -/
theorem c7_ref_sig8_absolute (junk : List Nat) (b0 b1 b2 b3 b4 b5 b6 b7 : Nat)
    (h0 : b0 < 256) (h1 : b1 < 256) (h2 : b2 < 256) (h3 : b3 < 256)
    (h4 : b4 < 256) (h5 : b5 < 256) (h6 : b6 < 256) (h7 : b7 < 256) :
    dwarfStart (refSig8Sections junk [b0, b1, b2, b3, b4, b5, b6, b7]) .little junk.length =
      ([DwarfEvent.startCU junk.length 4 4 16 4,
        DwarfEvent.startDIE (junk.length + 11) 0x2b,
        DwarfEvent.attrSignature (junk.length + 11) 0x49 0x20
          (b0 + 2 ^ 8 * b1 + 2 ^ 16 * b2 + 2 ^ 24 * b3 + 2 ^ 32 * b4 + 2 ^ 40 * b5 +
            2 ^ 48 * b6 + 2 ^ 56 * b7),
        DwarfEvent.endDIE (junk.length + 11)], 20) := by
  have hdrop : (refSig8Sections junk [b0, b1, b2, b3, b4, b5, b6, b7]).debug_info.drop
      junk.length = refSig8CU [b0, b1, b2, b3, b4, b5, b6, b7] :=
    List.drop_left junk _
  have hheader : parseCUHeader .little (refSig8CU [b0, b1, b2, b3, b4, b5, b6, b7]) =
      some ⟨4, 4, 16, 4, 0, 0, 4, 11⟩ := by
    simp [parseCUHeader, refSig8CU, le32, le16, readFixed, readBytes, wordValue]
  have habbrev9 : parseAbbrevs 9 refSig8Abbrevs 0 =
      some [⟨1, 0x2b, false, [⟨0x49, 0x20, 0⟩]⟩] := by decide
  have hcu : (refSig8CU [b0, b1, b2, b3, b4, b5, b6, b7]).take (4 + 16) =
      refSig8CU [b0, b1, b2, b3, b4, b5, b6, b7] := by
    simp [refSig8CU, le32, le16]
  have hculen : (refSig8CU [b0, b1, b2, b3, b4, b5, b6, b7]).length + 1 = 21 := by
    simp [refSig8CU, le32, le16]
  have huleb : readULEB (refSig8CU [b0, b1, b2, b3, b4, b5, b6, b7]) 11 = some (1, 1) := by
    rw [readULEB, hculen, show (21 : Nat) = 20 + 1 from rfl]
    simp [readULEBCore, refSig8CU, le32, le16]
  have hsig : readFixed .little (refSig8CU [b0, b1, b2, b3, b4, b5, b6, b7]) 12 8 =
      some (b0 + 2 ^ 8 * b1 + 2 ^ 16 * b2 + 2 ^ 24 * b3 + 2 ^ 32 * b4 + 2 ^ 40 * b5 +
        2 ^ 48 * b6 + 2 ^ 56 * b7) := by
    simp [readFixed, readBytes, refSig8CU, le32, le16, wordValue,
      Nat.mod_eq_of_lt h0, Nat.mod_eq_of_lt h1, Nat.mod_eq_of_lt h2, Nat.mod_eq_of_lt h3,
      Nat.mod_eq_of_lt h4, Nat.mod_eq_of_lt h5, Nat.mod_eq_of_lt h6, Nat.mod_eq_of_lt h7]
    ring
  have hattr : processAttrs (refSig8Sections junk [b0, b1, b2, b3, b4, b5, b6, b7]) .little
      ⟨4, 4, 16, 4, 0, 0, 4, 11⟩ junk.length (refSig8CU [b0, b1, b2, b3, b4, b5, b6, b7])
      (junk.length + 11) [⟨0x49, 0x20, 0⟩] 12 ⟨8, 8⟩ =
      some ([DwarfEvent.attrSignature (junk.length + 11) 0x49 0x20
        (b0 + 2 ^ 8 * b1 + 2 ^ 16 * b2 + 2 ^ 24 * b3 + 2 ^ 32 * b4 + 2 ^ 40 * b5 +
          2 ^ 48 * b6 + 2 ^ 56 * b7)], 20, ⟨8, 8⟩) := by
    simp only [processAttrs, decodeForm, updateCtx]
    rw [hsig]
  have hdie : processDIE (refSig8Sections junk [b0, b1, b2, b3, b4, b5, b6, b7]) .little
      ⟨4, 4, 16, 4, 0, 0, 4, 11⟩ junk.length (refSig8CU [b0, b1, b2, b3, b4, b5, b6, b7])
      [⟨1, 0x2b, false, [⟨0x49, 0x20, 0⟩]⟩] 21 11 ⟨8, 8⟩ =
      some ([DwarfEvent.startDIE (junk.length + 11) 0x2b,
        DwarfEvent.attrSignature (junk.length + 11) 0x49 0x20
          (b0 + 2 ^ 8 * b1 + 2 ^ 16 * b2 + 2 ^ 24 * b3 + 2 ^ 32 * b4 + 2 ^ 40 * b5 +
            2 ^ 48 * b6 + 2 ^ 56 * b7),
        DwarfEvent.endDIE (junk.length + 11)], 20, ⟨8, 8⟩) := by
    rw [show (21 : Nat) = 20 + 1 from rfl]
    simp only [processDIE, huleb, List.find?]
    norm_num
    rw [hattr]
    norm_num
  unfold dwarfStart
  rw [hdrop]
  simp only [dwarfStartOn, hheader,
    show (refSig8Sections junk [b0, b1, b2, b3, b4, b5, b6, b7]).debug_abbrev =
      refSig8Abbrevs from rfl,
    hcu, hculen, show refSig8Abbrevs.length + 1 = 9 from rfl, habbrev9]
  norm_num
  rw [hdie]
  norm_num

/-- Witness for C7 at the ref_sig8_not_first scenario: CU start offset
98, signature value 0xf72fa0cb6ddcf9d6. -/
theorem c7_witness :
    dwarfStart (refSig8Sections (List.replicate 98 42)
        [0xd6, 0xf9, 0xdc, 0x6d, 0xcb, 0xa0, 0x2f, 0xf7]) .little 98 =
      ([DwarfEvent.startCU 98 4 4 16 4, DwarfEvent.startDIE 109 0x2b,
        DwarfEvent.attrSignature 109 0x49 0x20 0xf72fa0cb6ddcf9d6,
        DwarfEvent.endDIE 109], 20) := by
  have h := c7_ref_sig8_absolute (List.replicate 98 42) 0xd6 0xf9 0xdc 0x6d 0xcb 0xa0 0x2f 0xf7
    (by norm_num) (by norm_num) (by norm_num) (by norm_num) (by norm_num) (by norm_num)
    (by norm_num) (by norm_num)
  norm_num [List.length_replicate] at h
  exact h

end Breakpad
